import Mathlib

/-!
Verification development for the RaceOn simulation core.

Shallow embedding of the simulation code (vector math, spatial world
model, physics integrator, steering behaviors, spawn/lifecycle manager)
over the reals, together with theorems settling the specification claims.

Numbers are modelled by `ℝ` (the source uses JS doubles); `Math.sqrt`,
`Math.cos`, `Math.sin`, `Math.atan2` become their real counterparts.
Branches on real comparisons use classical decidability, so the
development lives in a `noncomputable section`.
-/

namespace RaceOn

noncomputable section

open scoped Classical

/-- 2D vector value type, from `src/utils/Vector2D.ts`. -/
structure Vector2D where
  x : ℝ
  y : ℝ

namespace Vector2D

/-- Source `add(other)`. -/
def add (v other : Vector2D) : Vector2D := ⟨v.x + other.x, v.y + other.y⟩

/-- Source `subtract(other)`. -/
def subtract (v other : Vector2D) : Vector2D := ⟨v.x - other.x, v.y - other.y⟩

/-- Source `multiply(scalar)`. -/
def multiply (v : Vector2D) (scalar : ℝ) : Vector2D := ⟨v.x * scalar, v.y * scalar⟩

/-- Source `length()` = `Math.sqrt(x*x + y*y)`. -/
def length (v : Vector2D) : ℝ := Real.sqrt (v.x * v.x + v.y * v.y)

/-- Source `normalize()`: returns the zero vector when the length is zero. -/
def normalize (v : Vector2D) : Vector2D :=
  if v.length = 0 then ⟨0, 0⟩ else ⟨v.x / v.length, v.y / v.length⟩

/-- Source `Vector2D.fromAngle(angle, magnitude)`. -/
def fromAngle (angle magnitude : ℝ) : Vector2D :=
  ⟨Real.cos angle * magnitude, Real.sin angle * magnitude⟩

end Vector2D

/-- Source `Math.atan2(y, x)`, by the standard case split on the quadrant
(`atan2(0, 0) = 0` as in JS). -/
def atan2 (y x : ℝ) : ℝ :=
  if 0 < x then Real.arctan (y / x)
  else if x < 0 ∧ 0 ≤ y then Real.arctan (y / x) + Real.pi
  else if x < 0 ∧ y < 0 then Real.arctan (y / x) - Real.pi
  else if x = 0 ∧ 0 < y then Real.pi / 2
  else if x = 0 ∧ y < 0 then -(Real.pi / 2)
  else 0

/-- Source `Math.sign`. -/
def sign (a : ℝ) : ℝ := if 0 < a then 1 else if a < 0 then -1 else 0

/- Constants of `src/config/GameConfig.ts` (`GAME_CONFIG`) used by the
simulation core. -/
namespace GameConfig

def WORLD_WIDTH : ℝ := 2400
def WORLD_HEIGHT : ℝ := 1800
def VEHICLE_MAX_SPEED : ℝ := 200
def VEHICLE_MIN_SPEED_MULTIPLIER : ℝ := 0.2
def VEHICLE_MIN_REVERSE_SPEED_MULTIPLIER : ℝ := 0.1
def VEHICLE_TERRAIN_FRICTION_MULTIPLIER : ℝ := 700
def VEHICLE_BOUNCE_FACTOR : ℝ := -0.3
def VEHICLE_BOUNCE_DISTANCE : ℝ := 2
def VEHICLE_RADIUS_MULTIPLIER : ℝ := 0.5
def WATER_COLLISION_RADIUS_MULTIPLIER : ℝ := 0.5
def ROCK_COLLISION_RADIUS_MULTIPLIER : ℝ := 0.5
def WATER_BANDIT_SPAWN_INTERVAL : ℝ := 2
def WATER_BANDIT_MAX_ACTIVE : ℕ := 4

end GameConfig

/-- Source `WaterObstacle` and `RockObstacle` share this shape
(`position: Vector2D, radius: number`). -/
structure Obstacle where
  position : Vector2D
  radius : ℝ

/-- Source `TerrainEffect` of `src/world/DesertWorld.ts` (the `type` tag is
irrelevant to the simulation and omitted). -/
structure TerrainEffect where
  position : Vector2D
  radius : ℝ
  slowdownFactor : ℝ

/-- The static terrain owned by `DesertWorld`: water obstacles, rock
obstacles and terrain-effect zones, in insertion order. -/
structure DesertWorld where
  waterObstacles : List Obstacle
  rockObstacles : List Obstacle
  terrainEffects : List TerrainEffect

/-- The common loop body of `checkWaterCollision` / `checkRockCollision`:
first obstacle whose center distance to `position` is below
`adjustedRadius + obstacle.radius` wins (insertion order). -/
def findCollidingObstacle (position : Vector2D) (adjustedRadius : ℝ) :
    List Obstacle → Option Obstacle
  | [] => none
  | o :: rest =>
    if (position.subtract o.position).length < adjustedRadius + o.radius then some o
    else findCollidingObstacle position adjustedRadius rest

namespace DesertWorld

/-- Source `DesertWorld.checkWaterCollision(position, radius)`. -/
def checkWaterCollision (w : DesertWorld) (position : Vector2D) (radius : ℝ) :
    Option Obstacle :=
  findCollidingObstacle position
    (radius * GameConfig.WATER_COLLISION_RADIUS_MULTIPLIER) w.waterObstacles

/-- Source `DesertWorld.checkRockCollision(position, radius)`. -/
def checkRockCollision (w : DesertWorld) (position : Vector2D) (radius : ℝ) :
    Option Obstacle :=
  findCollidingObstacle position
    (radius * GameConfig.ROCK_COLLISION_RADIUS_MULTIPLIER) w.rockObstacles

/-- Source `DesertWorld.getTerrainEffect(position)`: minimum `slowdownFactor`
over all zones containing the point, defaulting to `1.0`. -/
def getTerrainEffect (w : DesertWorld) (position : Vector2D) : ℝ :=
  w.terrainEffects.foldl
    (fun strongestSlowdown effect =>
      if (position.subtract effect.position).length ≤ effect.radius then
        min strongestSlowdown effect.slowdownFactor
      else strongestSlowdown)
    1

end DesertWorld

/-- The `entityType` discriminator of `PhysicsEntity`. -/
inductive EntityType
  | player
  | enemy
deriving DecidableEq

/-- Source `PhysicsEntity` of `src/physics/PhysicsSystem.ts`; `getWidth()` /
`getHeight()` are modelled as the `width` / `height` fields. -/
structure PhysicsEntity where
  position : Vector2D
  velocity : Vector2D
  speed : ℝ
  angle : ℝ
  width : ℝ
  height : ℝ
  entityType : EntityType

/-- Source `PhysicsConfig` of `src/physics/PhysicsSystem.ts`. -/
structure PhysicsConfig where
  maxSpeed : ℝ
  bounceDistance : ℝ
  bounceFactor : ℝ
  terrainFrictionMultiplier : ℝ
  minSpeedMultiplier : ℝ
  minReverseSpeedMultiplier : ℝ
  radiusMultiplier : ℝ

/-- Source `PhysicsSystem.createVehicleConfig()`. -/
def createVehicleConfig : PhysicsConfig where
  maxSpeed := GameConfig.VEHICLE_MAX_SPEED
  bounceDistance := GameConfig.VEHICLE_BOUNCE_DISTANCE
  bounceFactor := GameConfig.VEHICLE_BOUNCE_FACTOR
  terrainFrictionMultiplier := GameConfig.VEHICLE_TERRAIN_FRICTION_MULTIPLIER
  minSpeedMultiplier := GameConfig.VEHICLE_MIN_SPEED_MULTIPLIER
  minReverseSpeedMultiplier := GameConfig.VEHICLE_MIN_REVERSE_SPEED_MULTIPLIER
  radiusMultiplier := GameConfig.VEHICLE_RADIUS_MULTIPLIER

/-- Payload shared by the four solid-collision events of
`src/events/EventTypes.ts` (obstacle position and radius, entity position
and velocity, collision point, collision vector, collision normal,
overlap). -/
structure SolidCollisionPayload where
  obstaclePosition : Vector2D
  obstacleRadius : ℝ
  entityPosition : Vector2D
  entityVelocity : Vector2D
  collisionPoint : Vector2D
  collisionVector : Vector2D
  collisionNormal : Vector2D
  overlap : ℝ

/-- The solid-collision event types declared in `EVENT_TYPES`
(`collision:player_water`, `collision:enemy_water`,
`collision:player_rock`, `collision:enemy_rock`). -/
inductive GameEvent
  | playerWaterCollision (payload : SolidCollisionPayload)
  | enemyWaterCollision (payload : SolidCollisionPayload)
  | playerRockCollision (payload : SolidCollisionPayload)
  | enemyRockCollision (payload : SolidCollisionPayload)

/-- Whether an event is one of the two rock-collision events. -/
def GameEvent.isRockCollisionEvent : GameEvent → Prop
  | .playerRockCollision _ => True
  | .enemyRockCollision _ => True
  | _ => False

/-- Source `PhysicsSystem.handleSolidCollision`: push `bounceDistance` units
away from the obstacle along the normalized (position − obstacle
position) direction and scale `speed` by `bounceFactor`. -/
def handleSolidCollision (entity : PhysicsEntity) (obstaclePosition : Vector2D)
    (config : PhysicsConfig) : PhysicsEntity :=
  let bounceDirection := (entity.position.subtract obstaclePosition).normalize
  { entity with
    position := entity.position.add (bounceDirection.multiply config.bounceDistance)
    speed := entity.speed * config.bounceFactor }

/-- Source `PhysicsSystem.applyTerrainEffects` (the debug logging is pure
console output and is omitted). -/
def applyTerrainEffects (entity : PhysicsEntity) (world : DesertWorld)
    (config : PhysicsConfig) (deltaTime : ℝ) : PhysicsEntity :=
  let terrainEffect := world.getTerrainEffect entity.position
  if terrainEffect < 1 then
    let additionalFriction := (1 - terrainEffect) * config.terrainFrictionMultiplier
    if 0 < entity.speed then
      let newSpeed := entity.speed - additionalFriction * deltaTime
      let minSpeed := config.maxSpeed * config.minSpeedMultiplier
      { entity with speed := max minSpeed newSpeed }
    else if entity.speed < 0 then
      let newSpeed := entity.speed + additionalFriction * deltaTime
      let minReverseSpeed := -config.maxSpeed * config.minReverseSpeedMultiplier
      { entity with speed := min minReverseSpeed newSpeed }
    else entity
  else entity

/-- The entity collision radius used by the integrator:
`max(getWidth(), getHeight()) * config.radiusMultiplier`. -/
def entityCollisionRadius (entity : PhysicsEntity) (config : PhysicsConfig) : ℝ :=
  max entity.width entity.height * config.radiusMultiplier

/-- The candidate position of one integrator step:
`position + fromAngle(angle, speed) * deltaTime`. -/
def candidatePosition (entity : PhysicsEntity) (deltaTime : ℝ) : Vector2D :=
  entity.position.add ((Vector2D.fromAngle entity.angle entity.speed).multiply deltaTime)

/-- Source `PhysicsSystem.updateEntityPhysics`: one integrator step.  Returns
the updated entity together with the list of events emitted through
`GameEvents.emit` during the step (in emission order). -/
def updateEntityPhysics (entity : PhysicsEntity) (deltaTime : ℝ)
    (world : DesertWorld) (config : PhysicsConfig) :
    PhysicsEntity × List GameEvent :=
  let e := { entity with velocity := Vector2D.fromAngle entity.angle entity.speed }
  let newPosition := candidatePosition entity deltaTime
  let entityRadius := entityCollisionRadius entity config
  match world.checkRockCollision newPosition entityRadius with
  | some rockCollision => (handleSolidCollision e rockCollision.position config, [])
  | none =>
    match world.checkWaterCollision newPosition entityRadius with
    | some waterCollision =>
      let collisionVector := e.position.subtract waterCollision.position
      let collisionNormal := collisionVector.normalize
      let overlap := entityRadius + waterCollision.radius - collisionVector.length
      let payload : SolidCollisionPayload :=
        { obstaclePosition := waterCollision.position
          obstacleRadius := waterCollision.radius
          entityPosition := e.position
          entityVelocity := e.velocity
          collisionPoint := e.position
          collisionVector := collisionVector
          collisionNormal := collisionNormal
          overlap := overlap }
      let event := match e.entityType with
        | .player => GameEvent.playerWaterCollision payload
        | .enemy => GameEvent.enemyWaterCollision payload
      (handleSolidCollision e waterCollision.position config, [event])
    | none =>
      (applyTerrainEffects { e with position := newPosition } world config deltaTime, [])

/-- Source `AvoidanceCell` of `src/world/DesertWorld.ts`.  `obstacleDistance`
is `none` when the `Number.MAX_VALUE` sentinel was never replaced (no
hazard at all). -/
structure AvoidanceCell where
  hasObstacles : Prop
  avoidanceVector : Vector2D
  obstacleDistance : Option ℝ

/-- The edge distance used by `computeAvoidanceForCell`:
center distance minus the hazard radius. -/
def effectiveDistance (cellCenter : Vector2D) (h : Obstacle) : ℝ :=
  (cellCenter.subtract h.position).length - h.radius

/-- One iteration of the nearest-hazard scan in
`computeAvoidanceForCell`: replace the accumulator when the new hazard
effective distance is strictly smaller (`none` models the initial
`Number.MAX_VALUE` / `null` pair, which any hazard replaces). -/
def nearestHazardStep (cellCenter : Vector2D) (acc : Option (ℝ × Vector2D))
    (h : Obstacle) : Option (ℝ × Vector2D) :=
  match acc with
  | none => some (effectiveDistance cellCenter h, h.position)
  | some (nearestDistance, nearestObstacle) =>
    if effectiveDistance cellCenter h < nearestDistance then
      some (effectiveDistance cellCenter h, h.position)
    else some (nearestDistance, nearestObstacle)

/-- The hazards scanned by `computeAvoidanceForCell`, in its iteration
order: all water obstacles, then all rock obstacles, then the
terrain-effect zones with `slowdownFactor < 0.8`. -/
def qualifyingHazards (w : DesertWorld) : List Obstacle :=
  w.waterObstacles ++ w.rockObstacles ++
    (w.terrainEffects.filter (fun effect => effect.slowdownFactor < 0.8)).map
      (fun effect => ⟨effect.position, effect.radius⟩)

/-- Source `gridCellSize = 32`. -/
def gridCellSize : ℝ := 32

/-- Source `gridWidth = Math.ceil(worldWidth / gridCellSize)`. -/
def gridWidth : ℤ := ⌈GameConfig.WORLD_WIDTH / gridCellSize⌉

/-- Source `gridHeight = Math.ceil(worldHeight / gridCellSize)`. -/
def gridHeight : ℤ := ⌈GameConfig.WORLD_HEIGHT / gridCellSize⌉

/-- The world-space center of a grid cell:
`(gridX * cellSize + cellSize/2, gridY * cellSize + cellSize/2)`. -/
def cellCenter (gridX gridY : ℤ) : Vector2D :=
  ⟨gridX * gridCellSize + gridCellSize / 2, gridY * gridCellSize + gridCellSize / 2⟩

/-- Source `DesertWorld.computeAvoidanceForCell(gridX, gridY)`: scan all
qualifying hazards for the nearest effective distance; the cell is
flagged when that distance is below the 100-unit threshold, and then
stores the normalized (cell center − nearest hazard center) vector. -/
def computeAvoidanceForCell (w : DesertWorld) (gridX gridY : ℤ) : AvoidanceCell :=
  let c := cellCenter gridX gridY
  match (qualifyingHazards w).foldl (nearestHazardStep c) none with
  | none => { hasObstacles := False, avoidanceVector := ⟨0, 0⟩, obstacleDistance := none }
  | some (nearestDistance, nearestObstacle) =>
    { hasObstacles := nearestDistance < 100
      avoidanceVector :=
        if nearestDistance < 100 then (c.subtract nearestObstacle).normalize else ⟨0, 0⟩
      obstacleDistance := some nearestDistance }

/-- Source `DesertWorld.getAvoidanceVector(position)`: O(1) lookup by flooring
`position / cellSize`, `none` out of grid bounds or when the cell has no
hazard flagged.  The precomputed array holds exactly
`computeAvoidanceForCell` for each in-bounds cell. -/
def DesertWorld.getAvoidanceVector (w : DesertWorld) (position : Vector2D) :
    Option Vector2D :=
  let gridX : ℤ := ⌊position.x / gridCellSize⌋
  let gridY : ℤ := ⌊position.y / gridCellSize⌋
  if gridX < 0 ∨ gridWidth ≤ gridX ∨ gridY < 0 ∨ gridHeight ≤ gridY then none
  else
    let cell := computeAvoidanceForCell w gridX gridY
    if cell.hasObstacles then some cell.avoidanceVector else none

/-- The numeric fields of `EntityDefinition`
(`src/entities/EntityRegistry.ts`); the string identifiers (`id`,
`name`, `sprite`, `behavior`) play no role in the simulation logic. -/
structure EntityDefinition where
  maxSpeed : ℝ
  acceleration : ℝ
  friction : ℝ
  turnSpeed : ℝ
  width : ℝ
  height : ℝ
  collisionRadiusMultiplier : ℝ
  stuckDetectionTime : ℝ
  avoidanceDuration : ℝ
  avoidanceCooldown : ℝ
  wanderStrength : ℝ
  stuckMovementThreshold : ℝ
  stuckTimerDecay : ℝ
  minMovementSpeed : ℝ
  spawnInterval : ℝ
  maxActive : ℕ
  spawnDistanceMin : ℝ
  spawnDistanceMax : ℝ

/-- The mutable state of a `WaterBanditEntity` (a `BaseEntity`). -/
structure BanditEntity where
  position : Vector2D
  velocity : Vector2D
  angle : ℝ
  speed : ℝ
  isAlive : Bool
  entityDefinition : EntityDefinition

/-- The `WaterBanditEntity` constructor: starts alive at
`startPosition` with zero velocity and speed, facing the escape
target. -/
def newWaterBanditEntity (definition : EntityDefinition)
    (startPosition escapeTarget : Vector2D) : BanditEntity :=
  let directionToEscape := (escapeTarget.subtract startPosition).normalize
  { position := startPosition
    velocity := ⟨0, 0⟩
    angle := atan2 directionToEscape.y directionToEscape.x
    speed := 0
    isAlive := true
    entityDefinition := definition }

/-- Source `WaterBanditEntity.update(deltaTime, world)`: a dead entity returns
immediately; otherwise the bound behavior update runs.
`behaviorUpdate` stands for `behavior.update(this, deltaTime, world)`
with the elapsed time, world and behavior state already applied. -/
def BanditEntity.update (behaviorUpdate : BanditEntity → BanditEntity)
    (e : BanditEntity) : BanditEntity :=
  if e.isAlive then behaviorUpdate e else e

/-- Source `WaterBanditEntity.destroy()`. -/
def BanditEntity.destroy (e : BanditEntity) : BanditEntity :=
  { e with isAlive := false, speed := 0, velocity := ⟨0, 0⟩ }

/-- Source `WaterBanditEntity.checkCollisionWithPlayer(playerPosition,
playerRadius)`: `false` for a dead entity, otherwise a center-distance
test with radius `max(width, height) / 2`. -/
def BanditEntity.checkCollisionWithPlayer (e : BanditEntity)
    (playerPosition : Vector2D) (playerRadius : ℝ) : Prop :=
  e.isAlive = true ∧
    (e.position.subtract playerPosition).length <
      max e.entityDefinition.width e.entityDefinition.height / 2 + playerRadius

/-- Source `WaterBanditEntity.hasEscaped(worldWidth, worldHeight)` with its
fixed 20-unit margin. -/
def BanditEntity.hasEscaped (e : BanditEntity) (worldWidth worldHeight : ℝ) : Prop :=
  e.position.x < 20 ∨ worldWidth - 20 < e.position.x ∨
    e.position.y < 20 ∨ worldHeight - 20 < e.position.y

/-- Closed form of the two `while` loops that normalize an angle
difference into `[-π, π]` (subtract `2π` while above `π`, then add `2π`
while below `-π`). -/
def normalizeAngleDiff (a : ℝ) : ℝ :=
  if Real.pi < a then a - 2 * Real.pi * ⌈(a - Real.pi) / (2 * Real.pi)⌉
  else if a < -Real.pi then a + 2 * Real.pi * ⌈(-Real.pi - a) / (2 * Real.pi)⌉
  else a

/-- The look-ahead loop of
`ChasingBehavior.getOptimizedAvoidanceDirection`: first grid hit along
the given distances wins. -/
def firstAvoidanceHit (world : DesertWorld) (position forwardDirection : Vector2D) :
    List ℝ → Option Vector2D
  | [] => none
  | distance :: rest =>
    match world.getAvoidanceVector (position.add (forwardDirection.multiply distance)) with
    | some avoidanceVector => some avoidanceVector
    | none => firstAvoidanceHit world position forwardDirection rest

/-- Source `ChasingBehavior.getOptimizedAvoidanceDirection`: sample the
avoidance grid at look-ahead distances 60, 100, 140 along the entity
facing direction. -/
def getOptimizedAvoidanceDirection (e : BanditEntity) (world : DesertWorld) :
    Option Vector2D :=
  firstAvoidanceHit world e.position ⟨Real.cos e.angle, Real.sin e.angle⟩ [60, 100, 140]

/-- Source `ChasingBehaviorState`; `destroyed` models `state being the destroyed terminal state`. -/
structure ChasingBehaviorState where
  target : Vector2D
  wanderAngle : ℝ
  destroyed : Bool
  lastAvoidanceCheck : ℝ
  cachedAvoidanceDirection : Option Vector2D
  lastPlayerPosition : Vector2D

/-- Source `ChasingBehavior.updateAI`.  `now` models `performance.now()` and
`rWander` the one `Math.random()` sample drawn in the no-avoidance
branch. -/
def ChasingBehavior.updateAI (e : BanditEntity) (st : ChasingBehaviorState)
    (deltaTime : ℝ) (world : DesertWorld) (now rWander : ℝ) :
    BanditEntity × ChasingBehaviorState :=
  if st.destroyed then (e, st) else
  let config := e.entityDefinition
  let refresh := 500 < now - st.lastAvoidanceCheck
  let avoidanceDirection :=
    if refresh then getOptimizedAvoidanceDirection e world
    else st.cachedAvoidanceDirection
  let st₁ :=
    if refresh then
      { st with lastAvoidanceCheck := now, cachedAvoidanceDirection := avoidanceDirection }
    else st
  let chaseDirection := (st₁.target.subtract e.position).normalize
  let (targetDirection, st₂) :=
    match avoidanceDirection with
    | some av =>
      (((av.multiply 0.75).add (chaseDirection.multiply 0.25)).normalize, st₁)
    | none =>
      let wanderAngle :=
        st₁.wanderAngle + (rWander - 0.5) * config.wanderStrength * deltaTime
      let wanderDirection : Vector2D := ⟨Real.cos wanderAngle, Real.sin wanderAngle⟩
      (((chaseDirection.multiply 0.9).add (wanderDirection.multiply 0.1)).normalize,
        { st₁ with wanderAngle := wanderAngle })
  let desiredAngle := atan2 targetDirection.y targetDirection.x
  let angleDiff := normalizeAngleDiff (desiredAngle - e.angle)
  let turnSpeed :=
    if avoidanceDirection.isSome then config.turnSpeed * 1.5 else config.turnSpeed
  let maxTurnThisFrame := turnSpeed * deltaTime
  let newAngle :=
    if |angleDiff| < maxTurnThisFrame then desiredAngle
    else e.angle + sign angleDiff * maxTurnThisFrame
  let newSpeed := min config.maxSpeed (e.speed + config.acceleration * deltaTime)
  ({ e with angle := newAngle, speed := newSpeed }, st₂)

/-- Source `EscapingBehaviorState`; `destroyed` models `state being the destroyed terminal state`. -/
structure EscapingBehaviorState where
  escapeTarget : Vector2D
  wanderAngle : ℝ
  stuckTimer : ℝ
  lastPosition : Vector2D
  avoidanceTarget : Option Vector2D
  avoidanceStartTime : ℝ
  destroyed : Bool

/-- Source `EscapingBehavior.createAvoidanceTarget`; `rDistance` and `rSide`
are the two `Math.random()` samples. -/
def createAvoidanceTarget (e : BanditEntity) (st : EscapingBehaviorState)
    (now rDistance rSide : ℝ) : EscapingBehaviorState :=
  let avoidanceDistance := 150 + rDistance * 100
  let escapeDirection := (st.escapeTarget.subtract e.position).normalize
  let perpendicular : Vector2D := ⟨-escapeDirection.y, escapeDirection.x⟩
  let sideChoice : ℝ := if 0.5 < rSide then 1 else -1
  let avoidanceDirection := (escapeDirection.add (perpendicular.multiply sideChoice)).normalize
  { st with
    avoidanceTarget := some ⟨e.position.x + avoidanceDirection.x * avoidanceDistance,
      e.position.y + avoidanceDirection.y * avoidanceDistance⟩
    avoidanceStartTime := now }

/-- The stuck-detection prefix of `EscapingBehavior.updateAI` (up to and
including the possible creation of an avoidance target). -/
def escapingStuckPhase (e : BanditEntity) (st : EscapingBehaviorState)
    (deltaTime now rDistance rSide : ℝ) : EscapingBehaviorState :=
  let config := e.entityDefinition
  let distanceMoved := (e.position.subtract st.lastPosition).length
  let expectedMovement := e.speed * deltaTime
  let stuckTimer :=
    if config.minMovementSpeed < e.speed ∧
        distanceMoved < expectedMovement * config.stuckMovementThreshold then
      st.stuckTimer + deltaTime
    else max 0 (st.stuckTimer - deltaTime * config.stuckTimerDecay)
  let st₁ := { st with stuckTimer := stuckTimer, lastPosition := e.position }
  if config.stuckDetectionTime < st₁.stuckTimer then
    let avoidanceAge := now - st₁.avoidanceStartTime
    let st₂ :=
      if st₁.avoidanceTarget = none ∨ config.avoidanceCooldown * 1000 < avoidanceAge then
        createAvoidanceTarget e st₁ now rDistance rSide
      else st₁
    { st₂ with stuckTimer := 0 }
  else st₁

/-- The target-selection step of `EscapingBehavior.updateAI`: the
avoidance target (possibly clearing it for the next tick) when present,
else the escape target. -/
def escapingTargetPhase (e : BanditEntity) (st : EscapingBehaviorState) (now : ℝ) :
    Vector2D × EscapingBehaviorState :=
  match st.avoidanceTarget with
  | none => (st.escapeTarget, st)
  | some t =>
    let distanceToAvoidance := (e.position.subtract t).length
    let avoidanceAge := now - st.avoidanceStartTime
    if distanceToAvoidance < 50 ∨ e.entityDefinition.avoidanceDuration * 1000 < avoidanceAge
    then (t, { st with avoidanceTarget := none })
    else (t, st)

/-- Source `EscapingBehavior.updateAI`.  `now` models `performance.now()`;
`rDistance`, `rSide`, `rWander`, `rTurn`, `rAccel` are the
`Math.random()` samples of the respective call sites. -/
def EscapingBehavior.updateAI (e : BanditEntity) (st : EscapingBehaviorState)
    (deltaTime now rDistance rSide rWander rTurn rAccel : ℝ) :
    BanditEntity × EscapingBehaviorState :=
  if st.destroyed then (e, st) else
  let config := e.entityDefinition
  let st₁ := escapingStuckPhase e st deltaTime now rDistance rSide
  let (currentTarget, st₂) := escapingTargetPhase e st₁ now
  let directionToTarget := currentTarget.subtract e.position
  let distanceToTarget := directionToTarget.length
  if 10 < distanceToTarget then
    let wanderAngle := st₂.wanderAngle + (rWander - 0.5) * config.wanderStrength * deltaTime
    let targetAngle := atan2 directionToTarget.y directionToTarget.x
    let desiredAngle := targetAngle + wanderAngle * 0.15
    let angleDiff := normalizeAngleDiff (desiredAngle - e.angle)
    let baseTurnSpeed := config.turnSpeed * (0.8 + rTurn * 0.4)
    let maxTurnThisFrame := baseTurnSpeed * deltaTime
    let newAngle :=
      if |angleDiff| < maxTurnThisFrame then desiredAngle
      else e.angle + sign angleDiff * maxTurnThisFrame
    let baseAcceleration := config.acceleration * (0.7 + rAccel * 0.6)
    let newSpeed := min config.maxSpeed (e.speed + baseAcceleration * deltaTime)
    ({ e with angle := newAngle, speed := newSpeed }, { st₂ with wanderAngle := wanderAngle })
  else
    ({ e with speed := max 0 (e.speed - config.friction * deltaTime) }, st₂)

/-- Source `EscapingBehavior.updatePhysics`: recompute velocity from angle and
speed and advance the position. -/
def EscapingBehavior.updatePhysics (e : BanditEntity) (deltaTime : ℝ) : BanditEntity :=
  let velocity := Vector2D.fromAngle e.angle e.speed
  { e with velocity := velocity, position := e.position.add (velocity.multiply deltaTime) }

/-- Per-type manager state of `EnemyManager` (`EnemyTypeManager`):
accumulated spawn timer and the entity list. -/
structure EnemyTypeManagerState where
  spawnTimer : ℝ
  enemies : List BanditEntity

/-- The random samples consumed by one `EnemyManager.spawnEnemy` call:
anchor choice, offset and angle samples, and the escape-edge choice. -/
structure SpawnRandomness where
  anchorIndex : ℕ
  rOffset : ℝ
  rAngle : ℝ
  edge : ℕ
  rEdge : ℝ

/-- Source `EnemyManager.getRandomEscapeTarget()` for a given edge choice and
position sample. -/
def getRandomEscapeTarget (worldWidth worldHeight : ℝ) (edge : ℕ) (rEdge : ℝ) :
    Vector2D :=
  if edge = 0 then ⟨rEdge * worldWidth, 0⟩
  else if edge = 1 then ⟨worldWidth, rEdge * worldHeight⟩
  else if edge = 2 then ⟨rEdge * worldWidth, worldHeight⟩
  else if edge = 3 then ⟨0, rEdge * worldHeight⟩
  else ⟨0, 0⟩

/-- Source `EnemyManager.spawnEnemy`: offset a random water anchor by a sampled
distance in `[spawnDistanceMin, spawnDistanceMax]` and angle; `none`
exactly when the water-obstacle list is empty. -/
def spawnEnemy (definition : EntityDefinition) (waterObstacles : List Obstacle)
    (worldWidth worldHeight : ℝ) (rng : SpawnRandomness) : Option BanditEntity :=
  match waterObstacles.get? (rng.anchorIndex % waterObstacles.length) with
  | none => none
  | some waterHole =>
    let spawnOffset := definition.spawnDistanceMin +
      rng.rOffset * (definition.spawnDistanceMax - definition.spawnDistanceMin)
    let spawnAngle := rng.rAngle * (2 * Real.pi)
    let spawnPosition : Vector2D :=
      ⟨waterHole.position.x + Real.cos spawnAngle * spawnOffset,
        waterHole.position.y + Real.sin spawnAngle * spawnOffset⟩
    let escapeTarget := getRandomEscapeTarget worldWidth worldHeight rng.edge rng.rEdge
    some (newWaterBanditEntity definition spawnPosition escapeTarget)

/-- Source `getActiveEnemies(entityId).length`: the number of live entities. -/
def countAlive (enemies : List BanditEntity) : ℕ :=
  (enemies.filter (fun e => e.isAlive)).length

/-- The lifecycle-pruning filter of `EnemyManager.updateEnemyType`:
keep an entity exactly when it is alive and has not escaped. -/
def pruneEnemies (worldWidth worldHeight : ℝ) : List BanditEntity → List BanditEntity
  | [] => []
  | e :: rest =>
    if e.isAlive = true ∧ ¬e.hasEscaped worldWidth worldHeight then
      e :: pruneEnemies worldWidth worldHeight rest
    else pruneEnemies worldWidth worldHeight rest

/-- The spawn-timer prefix of `EnemyManager.updateEnemyType`: advance
the timer; when it reaches `spawnInterval` and the live count is below
`maxActive`, attempt a spawn and reset the timer to zero. -/
def spawnPhase (definition : EntityDefinition) (waterObstacles : List Obstacle)
    (worldWidth worldHeight : ℝ) (rng : SpawnRandomness)
    (s : EnemyTypeManagerState) (deltaTime : ℝ) : EnemyTypeManagerState :=
  let spawnTimer := s.spawnTimer + deltaTime
  if definition.spawnInterval ≤ spawnTimer ∧ countAlive s.enemies < definition.maxActive then
    { spawnTimer := 0
      enemies :=
        match spawnEnemy definition waterObstacles worldWidth worldHeight rng with
        | some enemy => s.enemies ++ [enemy]
        | none => s.enemies }
  else { spawnTimer := spawnTimer, enemies := s.enemies }

/-- Source `EnemyManager.updateEnemyType`: spawn phase, then per-entity update
(behavior bound through `BanditEntity.update`), then lifecycle
pruning. -/
def updateEnemyType (definition : EntityDefinition) (waterObstacles : List Obstacle)
    (worldWidth worldHeight : ℝ) (behaviorUpdate : BanditEntity → BanditEntity)
    (rng : SpawnRandomness) (s : EnemyTypeManagerState) (deltaTime : ℝ) :
    EnemyTypeManagerState :=
  let s₁ := spawnPhase definition waterObstacles worldWidth worldHeight rng s deltaTime
  let updated := s₁.enemies.map (BanditEntity.update behaviorUpdate)
  { s₁ with enemies := pruneEnemies worldWidth worldHeight updated }

/-! Concrete instances used to evaluate the embedded code at specific
inputs: the head-on rock-bounce scenario, the terrain-crawl scenario,
and small worlds exercising the avoidance grid. -/

/-- The rock of the head-on bounce scenario: position (110, 100),
radius 10. -/
def scenarioRock : Obstacle := ⟨⟨110, 100⟩, 10⟩

/-- A world holding only the scenario rock. -/
def rockScenarioWorld : DesertWorld := ⟨[], [scenarioRock], []⟩

/-- The scenario entity: at (100, 100), speed 200, angle 0 (heading +x),
20×12 footprint (collision radius 10 with the vehicle config). -/
def rockScenarioEntity : PhysicsEntity :=
  ⟨⟨100, 100⟩, ⟨0, 0⟩, 200, 0, 20, 12, .player⟩

/-- An entity already overlapping the scenario rock: at (105, 100),
standing still. -/
def overlappedEntity : PhysicsEntity :=
  ⟨⟨105, 100⟩, ⟨0, 0⟩, 0, 0, 20, 12, .player⟩

/-- A terrain-effect zone at the origin with radius 100 and slowdown
factor 0.5. -/
def sandZone : TerrainEffect := ⟨⟨0, 0⟩, 100, 0.5⟩

/-- A world holding only the sand zone. -/
def terrainScenarioWorld : DesertWorld := ⟨[], [], [sandZone]⟩

/-- The terrain-crawl scenario entity: at the origin, speed 50,
angle 0. -/
def terrainScenarioEntity : PhysicsEntity :=
  ⟨⟨0, 0⟩, ⟨0, 0⟩, 50, 0, 20, 12, .player⟩

/-- An entity crawling below the terrain speed floor: speed 10. -/
def slowEntity : PhysicsEntity :=
  ⟨⟨0, 0⟩, ⟨0, 0⟩, 10, 0, 20, 12, .player⟩

/-- The `water_bandit` entity definition registered by
`initializeEntitySystem`, with the `GAME_CONFIG.ENEMIES.WATER_BANDIT`
values. -/
def waterBanditDefinition : EntityDefinition where
  maxSpeed := 150
  acceleration := 200
  friction := 80
  turnSpeed := 2
  width := 20
  height := 12
  collisionRadiusMultiplier := 0.33
  stuckDetectionTime := 3
  avoidanceDuration := 8
  avoidanceCooldown := 5
  wanderStrength := 0.8
  stuckMovementThreshold := 0.3
  stuckTimerDecay := 3
  minMovementSpeed := 20
  spawnInterval := GameConfig.WATER_BANDIT_SPAWN_INTERVAL
  maxActive := GameConfig.WATER_BANDIT_MAX_ACTIVE
  spawnDistanceMin := 30
  spawnDistanceMax := 50

/-- A destroyed bandit somewhere in the middle of the world. -/
def deadBandit : BanditEntity :=
  ⟨⟨600, 600⟩, ⟨0, 0⟩, 0, 0, false, waterBanditDefinition⟩

/-- The water anchor of the spawn-throttling scenario. -/
def scenarioOasis : Obstacle := ⟨⟨1200, 900⟩, 20⟩

/-- Fixed random samples for the spawn-throttling scenario: first
anchor, minimal offset, angle 0, right-edge escape target. -/
def scenarioSpawnRng : SpawnRandomness := ⟨0, 0, 0, 1, 0⟩

/-- The bandit produced by `spawnEnemy` under `scenarioSpawnRng`:
spawned 30 units to the +x side of the oasis (at (1230, 900)), escaping
toward the right edge. -/
def scenarioBandit : BanditEntity :=
  newWaterBanditEntity waterBanditDefinition
    ⟨1200 + Real.cos (0 * (2 * Real.pi)) * (30 + 0 * (50 - 30)),
      900 + Real.sin (0 * (2 * Real.pi)) * (30 + 0 * (50 - 30))⟩
    (getRandomEscapeTarget 2400 1800 1 0)

/-- One tick of the spawn-throttling scenario: `updateEnemyType` for the
water-bandit type over a single-oasis world with `deltaTime = 2` and a
stationary behavior (`id`, modelling "no destructions, no movement"). -/
def scenarioStep (s : EnemyTypeManagerState) : EnemyTypeManagerState :=
  updateEnemyType waterBanditDefinition [scenarioOasis] 2400 1800 id scenarioSpawnRng s 2

/-- A water oasis far from grid cell (2, 2), at generation-legal
coordinates (1500 units from (80, 80)). -/
def degWater : Obstacle := ⟨⟨980, 1280⟩, 20⟩

/-- A rock whose center coincides with the center of grid cell (2, 2). -/
def degRock : Obstacle := ⟨⟨80, 80⟩, 16⟩

/-- A qualifying (slowdown 0.4) terrain zone far from cell (2, 2). -/
def degZone : TerrainEffect := ⟨⟨980, 1280⟩, 30, 0.4⟩

/-- A world with the same hazard-count structure world generation always
produces (12 oases, 58 terrain zones, some rocks) in which the nearest
hazard to cell (2, 2) is the rock centered on that cell center. -/
def degenerateWorld : DesertWorld :=
  ⟨List.replicate 12 degWater, [degRock], List.replicate 58 degZone⟩

/-- A rock 64 units to the +x side of the center of grid cell (0, 0). -/
def witnessRock : Obstacle := ⟨⟨80, 16⟩, 16⟩

/-- A world holding only `witnessRock`. -/
def oneRockWorld : DesertWorld := ⟨[], [witnessRock], []⟩

/-- An escaping bandit 5 units from its escape target (within the
10-unit epsilon), standing still. -/
def nearTargetBandit : BanditEntity :=
  ⟨⟨0, 0⟩, ⟨0, 0⟩, 0.3, 0, true, waterBanditDefinition⟩

/-- Escaping-behavior state for `nearTargetBandit`: escape target
(5, 0), no avoidance target, not stuck, not destroyed. -/
def nearTargetState : EscapingBehaviorState :=
  ⟨⟨5, 0⟩, 0, 0, ⟨0, 0⟩, none, 0, false⟩

/-- A chasing bandit sitting exactly on its target. -/
def chasingBandit : BanditEntity :=
  ⟨⟨0, 0⟩, ⟨0, 0⟩, 0, 0, true, waterBanditDefinition⟩

/-- Chasing-behavior state for `chasingBandit`: target at the entity
own position (distance 0), no cached avoidance direction. -/
def chasingState : ChasingBehaviorState :=
  ⟨⟨0, 0⟩, 0, false, 0, none, ⟨0, 0⟩⟩

end

open scoped Classical

/-! Basic facts about the vector operations. -/

theorem Vector2D.length_nonneg (v : Vector2D) : 0 ≤ v.length :=
  Real.sqrt_nonneg _

theorem Vector2D.length_axis (a : ℝ) : (Vector2D.mk a 0).length = |a| := by
  unfold Vector2D.length
  rw [show a * a + 0 * 0 = a * a by ring, Real.sqrt_mul_self_eq_abs]

theorem Vector2D.length_eq_zero_iff (v : Vector2D) : v.length = 0 ↔ v = ⟨0, 0⟩ := by
  constructor
  · intro h
    have hle : v.x * v.x + v.y * v.y ≤ 0 := Real.sqrt_eq_zero'.mp h
    have hx : v.x = 0 := by nlinarith [mul_self_nonneg v.x, mul_self_nonneg v.y]
    have hy : v.y = 0 := by nlinarith [mul_self_nonneg v.x, mul_self_nonneg v.y]
    cases v
    simp_all
  · intro h
    rw [h]
    unfold Vector2D.length
    simp

theorem Vector2D.length_multiply (v : Vector2D) (c : ℝ) :
    (v.multiply c).length = |c| * v.length := by
  unfold Vector2D.multiply Vector2D.length
  rw [show v.x * c * (v.x * c) + v.y * c * (v.y * c)
        = c * c * (v.x * v.x + v.y * v.y) by ring,
    Real.sqrt_mul (mul_self_nonneg c), Real.sqrt_mul_self_eq_abs]

theorem Vector2D.normalize_of_length_ne_zero {v : Vector2D} (h : v.length ≠ 0) :
    v.normalize = ⟨v.x / v.length, v.y / v.length⟩ := by
  unfold Vector2D.normalize
  rw [if_neg h]

theorem Vector2D.normalize_zero : (Vector2D.mk 0 0).normalize = ⟨0, 0⟩ := by
  unfold Vector2D.normalize
  rw [if_pos]
  rw [Vector2D.length_axis]
  simp

theorem Vector2D.length_pos_of_ne_zero {v : Vector2D} (h : v ≠ ⟨0, 0⟩) : 0 < v.length := by
  rcases lt_or_eq_of_le (Vector2D.length_nonneg v) with hlt | heq
  · exact hlt
  · exact absurd ((Vector2D.length_eq_zero_iff v).mp heq.symm) h

theorem Vector2D.length_normalize {v : Vector2D} (h : v ≠ ⟨0, 0⟩) :
    v.normalize.length = 1 := by
  have hL : 0 < v.length := Vector2D.length_pos_of_ne_zero h
  rw [Vector2D.normalize_of_length_ne_zero (ne_of_gt hL)]
  have hmul : (⟨v.x / v.length, v.y / v.length⟩ : Vector2D) = v.multiply (1 / v.length) := by
    unfold Vector2D.multiply
    simp only [Vector2D.mk.injEq]
    constructor <;> ring
  rw [hmul, Vector2D.length_multiply, abs_of_pos (by positivity)]
  field_simp

theorem Vector2D.subtract_eq_zero_iff (v w : Vector2D) :
    v.subtract w = ⟨0, 0⟩ ↔ v = w := by
  cases v
  cases w
  unfold Vector2D.subtract
  constructor
  · intro h
    have hx := congrArg Vector2D.x h
    have hy := congrArg Vector2D.y h
    simp at hx hy
    simp [sub_eq_zero.mp hx, sub_eq_zero.mp hy]
  · intro h
    injection h with hx hy
    simp [hx, hy]

/-! The bounce response of `handleSolidCollision` moves the entity
exactly `bounceDistance` further away from the obstacle center. -/

theorem handleSolidCollision_distance (e : PhysicsEntity) (o : Vector2D)
    (config : PhysicsConfig) (hbd : 0 ≤ config.bounceDistance)
    (hne : e.position ≠ o) :
    ((handleSolidCollision e o config).position.subtract o).length
      = (e.position.subtract o).length + config.bounceDistance := by
  have hu : e.position.subtract o ≠ ⟨0, 0⟩ :=
    fun h => hne ((Vector2D.subtract_eq_zero_iff _ _).mp h)
  have hL : 0 < (e.position.subtract o).length := Vector2D.length_pos_of_ne_zero hu
  have hstep : (handleSolidCollision e o config).position.subtract o
      = (e.position.subtract o).multiply
          (1 + config.bounceDistance / (e.position.subtract o).length) := by
    show (e.position.add
        (((e.position.subtract o).normalize).multiply config.bounceDistance)).subtract o
      = (e.position.subtract o).multiply
          (1 + config.bounceDistance / (e.position.subtract o).length)
    rw [Vector2D.normalize_of_length_ne_zero (ne_of_gt hL)]
    unfold Vector2D.add Vector2D.subtract Vector2D.multiply
    simp only [Vector2D.mk.injEq]
    constructor <;> field_simp <;> ring
  rw [hstep, Vector2D.length_multiply,
    abs_of_pos (show (0:ℝ) < 1 + config.bounceDistance / (e.position.subtract o).length by
      positivity)]
  field_simp

theorem handleSolidCollision_speed (e : PhysicsEntity) (o : Vector2D)
    (config : PhysicsConfig) :
    (handleSolidCollision e o config).speed = e.speed * config.bounceFactor := rfl

/-- C1 (amended): after one integrator step in which a rock or water
collision was detected, the entity is pushed exactly `bounceDistance`
units further away from the obstacle center (it is not guaranteed to end
at distance `≥ O.radius` from the obstacle). -/
theorem collisionStepPushesEntityAway (entity : PhysicsEntity) (deltaTime : ℝ)
    (world : DesertWorld) (config : PhysicsConfig)
    (o : Obstacle) (hbd : 0 ≤ config.bounceDistance)
    (hne : entity.position ≠ o.position) :
    (world.checkRockCollision (candidatePosition entity deltaTime)
        (entityCollisionRadius entity config) = some o →
      (((updateEntityPhysics entity deltaTime world config).1.position).subtract
          o.position).length
        = ((entity.position).subtract o.position).length + config.bounceDistance) ∧
    (world.checkRockCollision (candidatePosition entity deltaTime)
        (entityCollisionRadius entity config) = none →
      world.checkWaterCollision (candidatePosition entity deltaTime)
        (entityCollisionRadius entity config) = some o →
      (((updateEntityPhysics entity deltaTime world config).1.position).subtract
          o.position).length
        = ((entity.position).subtract o.position).length + config.bounceDistance) := by
  constructor
  · intro hrock
    simp only [updateEntityPhysics, hrock]
    exact handleSolidCollision_distance _ o.position config hbd hne
  · intro hrock hwater
    simp only [updateEntityPhysics, hrock, hwater]
    exact handleSolidCollision_distance _ o.position config hbd hne

/-! Concrete evaluations for the rock-bounce scenarios. -/

theorem overlapped_sub_length :
    ((Vector2D.mk 105 100).subtract ⟨110, 100⟩).length = 5 := by
  rw [show ((⟨105, 100⟩ : Vector2D).subtract ⟨110, 100⟩) = ⟨-5, 0⟩ by
    unfold Vector2D.subtract
    simp only [Vector2D.mk.injEq]
    norm_num]
  rw [Vector2D.length_axis]
  norm_num

theorem overlapped_candidate : candidatePosition overlappedEntity 0.1 = ⟨105, 100⟩ := by
  simp [candidatePosition, overlappedEntity, Vector2D.fromAngle, Vector2D.multiply,
    Vector2D.add]

theorem overlapped_radius :
    entityCollisionRadius overlappedEntity createVehicleConfig = 10 := by
  simp [entityCollisionRadius, overlappedEntity, createVehicleConfig,
    GameConfig.VEHICLE_RADIUS_MULTIPLIER, max_def]
  norm_num

theorem overlapped_rockCheck :
    rockScenarioWorld.checkRockCollision (candidatePosition overlappedEntity 0.1)
      (entityCollisionRadius overlappedEntity createVehicleConfig) = some scenarioRock := by
  rw [overlapped_candidate, overlapped_radius]
  unfold DesertWorld.checkRockCollision
  simp only [rockScenarioWorld, findCollidingObstacle, scenarioRock]
  rw [if_pos]
  rw [overlapped_sub_length]
  norm_num [GameConfig.ROCK_COLLISION_RADIUS_MULTIPLIER]

theorem overlapped_result_position :
    (updateEntityPhysics overlappedEntity 0.1 rockScenarioWorld createVehicleConfig).1.position
      = ⟨103, 100⟩ := by
  simp only [updateEntityPhysics, overlapped_rockCheck]
  show ((overlappedEntity.position).add
      ((((overlappedEntity.position).subtract scenarioRock.position).normalize).multiply
        createVehicleConfig.bounceDistance)) = ⟨103, 100⟩
  have hsub : (overlappedEntity.position).subtract scenarioRock.position = ⟨-5, 0⟩ := by
    unfold overlappedEntity scenarioRock Vector2D.subtract
    simp only [Vector2D.mk.injEq]
    norm_num
  have hnorm : (Vector2D.mk (-5) 0).normalize = ⟨-1, 0⟩ := by
    have hlen : (Vector2D.mk (-5) 0).length = 5 := by
      rw [Vector2D.length_axis]; norm_num
    rw [Vector2D.normalize_of_length_ne_zero (by rw [hlen]; norm_num), hlen]
    simp only [Vector2D.mk.injEq]
    norm_num
  rw [hsub, hnorm]
  unfold overlappedEntity Vector2D.multiply Vector2D.add
  simp only [Vector2D.mk.injEq]
  norm_num [createVehicleConfig, GameConfig.VEHICLE_BOUNCE_DISTANCE]

/-- C1 counterexample: the entity at (105, 100), standing still, has its
collision with the rock at (110, 100) (radius 10) detected in one
integrator step, yet after the step its distance to the rock center is
7, strictly less than the rock radius — the step leaves it
overlapping. -/
theorem collisionContainmentFails :
    rockScenarioWorld.checkRockCollision (candidatePosition overlappedEntity 0.1)
        (entityCollisionRadius overlappedEntity createVehicleConfig) = some scenarioRock ∧
    (((updateEntityPhysics overlappedEntity 0.1 rockScenarioWorld
        createVehicleConfig).1.position).subtract scenarioRock.position).length
      < scenarioRock.radius := by
  refine ⟨overlapped_rockCheck, ?_⟩
  rw [overlapped_result_position]
  rw [show ((⟨103, 100⟩ : Vector2D).subtract scenarioRock.position) = ⟨-7, 0⟩ by
    unfold scenarioRock Vector2D.subtract
    simp only [Vector2D.mk.injEq]
    norm_num]
  rw [Vector2D.length_axis]
  norm_num [scenarioRock]

/-- C1 witness: the amended theorem applied to the overlapping-entity
scenario: the step moves the entity from distance 5 to distance
5 + bounceDistance from the rock center. -/
theorem collisionStepPushesEntityAway_witness :
    (((updateEntityPhysics overlappedEntity 0.1 rockScenarioWorld
        createVehicleConfig).1.position).subtract scenarioRock.position).length
      = ((overlappedEntity.position).subtract scenarioRock.position).length
          + createVehicleConfig.bounceDistance :=
  (collisionStepPushesEntityAway overlappedEntity 0.1 rockScenarioWorld
      createVehicleConfig scenarioRock
      (by norm_num [createVehicleConfig, GameConfig.VEHICLE_BOUNCE_DISTANCE])
      (by unfold overlappedEntity scenarioRock
          simp only [Vector2D.mk.injEq]
          norm_num)).1
    overlapped_rockCheck

/-! The head-on rock-bounce scenario: entity at (100, 100), speed 200,
angle 0, rock at (110, 100). -/

theorem rockScenario_candidate (deltaTime : ℝ) :
    candidatePosition rockScenarioEntity deltaTime = ⟨100 + 200 * deltaTime, 100⟩ := by
  unfold candidatePosition rockScenarioEntity Vector2D.fromAngle Vector2D.multiply Vector2D.add
  simp only [Vector2D.mk.injEq]
  rw [Real.cos_zero, Real.sin_zero]
  constructor <;> ring

theorem rockScenario_radius :
    entityCollisionRadius rockScenarioEntity createVehicleConfig = 10 := by
  simp [entityCollisionRadius, rockScenarioEntity, createVehicleConfig,
    GameConfig.VEHICLE_RADIUS_MULTIPLIER, max_def]
  norm_num

theorem rockScenario_check (deltaTime : ℝ) (h0 : 0 ≤ deltaTime) (h1 : deltaTime < 1/8) :
    rockScenarioWorld.checkRockCollision (candidatePosition rockScenarioEntity deltaTime)
      (entityCollisionRadius rockScenarioEntity createVehicleConfig) = some scenarioRock := by
  rw [rockScenario_candidate, rockScenario_radius]
  unfold DesertWorld.checkRockCollision
  simp only [rockScenarioWorld, findCollidingObstacle, scenarioRock]
  rw [if_pos]
  rw [show (⟨100 + 200 * deltaTime, 100⟩ : Vector2D).subtract ⟨110, 100⟩
      = ⟨200 * deltaTime - 10, 0⟩ by
    unfold Vector2D.subtract
    simp only [Vector2D.mk.injEq]
    constructor <;> ring]
  rw [Vector2D.length_axis,
    show (10:ℝ) * GameConfig.ROCK_COLLISION_RADIUS_MULTIPLIER + 10 = 15 by
      norm_num [GameConfig.ROCK_COLLISION_RADIUS_MULTIPLIER],
    abs_lt]
  constructor <;> linarith

/-- C2: in the head-on bounce scenario (any `deltaTime` in `[0, 1/8)`,
for which the rock collision is detected) one integrator step does not
commit the candidate position: it moves the entity to (98, 100) — two
units from (100, 100) along the normalized (old position − obstacle
position) direction — multiplies the speed by −0.3 giving exactly −60,
and does no further processing that tick (no event, no terrain pass). -/
theorem headOnRockBounce (deltaTime : ℝ) (h0 : 0 ≤ deltaTime) (h1 : deltaTime < 1/8) :
    rockScenarioWorld.checkRockCollision (candidatePosition rockScenarioEntity deltaTime)
        (entityCollisionRadius rockScenarioEntity createVehicleConfig) = some scenarioRock ∧
    (updateEntityPhysics rockScenarioEntity deltaTime rockScenarioWorld
        createVehicleConfig).1.position = ⟨98, 100⟩ ∧
    (updateEntityPhysics rockScenarioEntity deltaTime rockScenarioWorld
        createVehicleConfig).1.speed = -60 ∧
    (updateEntityPhysics rockScenarioEntity deltaTime rockScenarioWorld
        createVehicleConfig).1.position ≠ candidatePosition rockScenarioEntity deltaTime ∧
    (updateEntityPhysics rockScenarioEntity deltaTime rockScenarioWorld
        createVehicleConfig).2 = [] := by
  have hcheck := rockScenario_check deltaTime h0 h1
  have hpos : (updateEntityPhysics rockScenarioEntity deltaTime rockScenarioWorld
      createVehicleConfig).1.position = ⟨98, 100⟩ := by
    simp only [updateEntityPhysics, hcheck]
    show ((rockScenarioEntity.position).add
        ((((rockScenarioEntity.position).subtract scenarioRock.position).normalize).multiply
          createVehicleConfig.bounceDistance)) = ⟨98, 100⟩
    have hsub : (rockScenarioEntity.position).subtract scenarioRock.position = ⟨-10, 0⟩ := by
      unfold rockScenarioEntity scenarioRock Vector2D.subtract
      simp only [Vector2D.mk.injEq]
      norm_num
    have hnorm : (Vector2D.mk (-10) 0).normalize = ⟨-1, 0⟩ := by
      have hlen : (Vector2D.mk (-10) 0).length = 10 := by
        rw [Vector2D.length_axis]; norm_num
      rw [Vector2D.normalize_of_length_ne_zero (by rw [hlen]; norm_num), hlen]
      simp only [Vector2D.mk.injEq]
      norm_num
    rw [hsub, hnorm]
    unfold rockScenarioEntity Vector2D.multiply Vector2D.add
    simp only [Vector2D.mk.injEq]
    norm_num [createVehicleConfig, GameConfig.VEHICLE_BOUNCE_DISTANCE]
  refine ⟨hcheck, hpos, ?_, ?_, ?_⟩
  · simp only [updateEntityPhysics, hcheck]
    show rockScenarioEntity.speed * createVehicleConfig.bounceFactor = -60
    norm_num [rockScenarioEntity, createVehicleConfig, GameConfig.VEHICLE_BOUNCE_FACTOR]
  · rw [hpos, rockScenario_candidate]
    intro h
    have hx := congrArg Vector2D.x h
    simp only at hx
    linarith
  · simp only [updateEntityPhysics, hcheck]

/-- C2 witness: the scenario evaluated at `deltaTime = 0.05`. -/
theorem headOnRockBounce_witness :
    (0:ℝ) ≤ 0.05 ∧ (0.05:ℝ) < 1/8 ∧
    (rockScenarioWorld.checkRockCollision (candidatePosition rockScenarioEntity 0.05)
        (entityCollisionRadius rockScenarioEntity createVehicleConfig) = some scenarioRock ∧
      (updateEntityPhysics rockScenarioEntity 0.05 rockScenarioWorld
          createVehicleConfig).1.position = ⟨98, 100⟩ ∧
      (updateEntityPhysics rockScenarioEntity 0.05 rockScenarioWorld
          createVehicleConfig).1.speed = -60 ∧
      (updateEntityPhysics rockScenarioEntity 0.05 rockScenarioWorld
          createVehicleConfig).1.position ≠ candidatePosition rockScenarioEntity 0.05 ∧
      (updateEntityPhysics rockScenarioEntity 0.05 rockScenarioWorld
          createVehicleConfig).2 = []) :=
  ⟨by norm_num, by norm_num, headOnRockBounce 0.05 (by norm_num) (by norm_num)⟩

/-- C4: resolving a rock collision emits no event at all.  In the
head-on rock-bounce scenario the collision is detected and resolved,
yet the list of events emitted during the step is empty — in
particular no `collision:player_rock` / `collision:enemy_rock` event is
produced, even though `EventTypes.ts` declares them and `Game.ts`
subscribes to them. -/
theorem rockCollisionEmitsNoEvent :
    rockScenarioWorld.checkRockCollision (candidatePosition rockScenarioEntity 0.05)
        (entityCollisionRadius rockScenarioEntity createVehicleConfig) = some scenarioRock ∧
    (updateEntityPhysics rockScenarioEntity 0.05 rockScenarioWorld
        createVehicleConfig).2 = [] := by
  have hcheck := rockScenario_check 0.05 (by norm_num) (by norm_num)
  exact ⟨hcheck, by simp only [updateEntityPhysics, hcheck]⟩

/-! Terrain friction in the collision-free integrator branch. -/

/-- C3: in a collision-free step whose committed position lies in
terrain with friction factor below 1, a forward-moving entity new
speed is exactly
`max (maxSpeed * minSpeedMultiplier)
     (speed − (1 − factor) * terrainFrictionMultiplier * deltaTime)`,
and in particular never drops below the `maxSpeed * minSpeedMultiplier`
floor — so repeated application keeps the speed at or above the floor. -/
theorem terrainFrictionFloor (entity : PhysicsEntity) (deltaTime : ℝ)
    (world : DesertWorld) (config : PhysicsConfig)
    (hrock : world.checkRockCollision (candidatePosition entity deltaTime)
      (entityCollisionRadius entity config) = none)
    (hwater : world.checkWaterCollision (candidatePosition entity deltaTime)
      (entityCollisionRadius entity config) = none)
    (hf : world.getTerrainEffect (candidatePosition entity deltaTime) < 1)
    (hs : 0 < entity.speed) :
    (updateEntityPhysics entity deltaTime world config).1.speed
      = max (config.maxSpeed * config.minSpeedMultiplier)
          (entity.speed -
            (1 - world.getTerrainEffect (candidatePosition entity deltaTime)) *
              config.terrainFrictionMultiplier * deltaTime) ∧
    config.maxSpeed * config.minSpeedMultiplier
      ≤ (updateEntityPhysics entity deltaTime world config).1.speed := by
  have heq : (updateEntityPhysics entity deltaTime world config).1.speed
      = max (config.maxSpeed * config.minSpeedMultiplier)
          (entity.speed -
            (1 - world.getTerrainEffect (candidatePosition entity deltaTime)) *
              config.terrainFrictionMultiplier * deltaTime) := by
    simp only [updateEntityPhysics, hrock, hwater, applyTerrainEffects]
    split_ifs
    rfl
  exact ⟨heq, heq ▸ le_max_left _ _⟩

theorem terrainScenario_candidate : candidatePosition terrainScenarioEntity 0.1 = ⟨5, 0⟩ := by
  unfold candidatePosition terrainScenarioEntity Vector2D.fromAngle Vector2D.multiply
    Vector2D.add
  simp only [Vector2D.mk.injEq]
  rw [Real.cos_zero, Real.sin_zero]
  norm_num

theorem terrainScenario_factor : terrainScenarioWorld.getTerrainEffect ⟨5, 0⟩ = 0.5 := by
  unfold DesertWorld.getTerrainEffect terrainScenarioWorld sandZone
  simp only [List.foldl]
  rw [if_pos]
  · norm_num [min_def]
  · rw [show ((⟨5, 0⟩ : Vector2D).subtract ⟨0, 0⟩) = ⟨5, 0⟩ by
      unfold Vector2D.subtract
      simp only [Vector2D.mk.injEq]
      norm_num]
    rw [Vector2D.length_axis]
    norm_num

theorem terrainScenario_noRock (p : Vector2D) (r : ℝ) :
    terrainScenarioWorld.checkRockCollision p r = none := by
  simp [DesertWorld.checkRockCollision, terrainScenarioWorld, findCollidingObstacle]

theorem terrainScenario_noWater (p : Vector2D) (r : ℝ) :
    terrainScenarioWorld.checkWaterCollision p r = none := by
  simp [DesertWorld.checkWaterCollision, terrainScenarioWorld, findCollidingObstacle]

/-- C3 witness: speed 50, maxSpeed 200, minSpeedMultiplier 0.2, terrain
factor 0.5, terrainFrictionMultiplier 700, deltaTime 0.1 gives exactly
the 40-unit floor. -/
theorem terrainFrictionFloor_witness :
    (updateEntityPhysics terrainScenarioEntity 0.1 terrainScenarioWorld
      createVehicleConfig).1.speed = 40 := by
  have hf : terrainScenarioWorld.getTerrainEffect
      (candidatePosition terrainScenarioEntity 0.1) < 1 := by
    rw [terrainScenario_candidate, terrainScenario_factor]
    norm_num
  have h := (terrainFrictionFloor terrainScenarioEntity 0.1 terrainScenarioWorld
    createVehicleConfig (terrainScenario_noRock _ _) (terrainScenario_noWater _ _) hf
    (by norm_num [terrainScenarioEntity])).1
  rw [h, terrainScenario_candidate, terrainScenario_factor]
  norm_num [terrainScenarioEntity, createVehicleConfig, GameConfig.VEHICLE_MAX_SPEED,
    GameConfig.VEHICLE_MIN_SPEED_MULTIPLIER, GameConfig.VEHICLE_TERRAIN_FRICTION_MULTIPLIER,
    max_def]

/-- C10: in a collision-free step on terrain with factor below 1, an
entity whose forward speed is strictly between 0 and the
`maxSpeed * minSpeedMultiplier` floor has its speed raised to exactly
that floor; symmetrically, a reverse speed strictly between
`−maxSpeed * minReverseSpeedMultiplier` and 0 is pushed down to exactly
`−maxSpeed * minReverseSpeedMultiplier`. -/
theorem terrainFrictionRaisesSlowSpeedToFloor (entity : PhysicsEntity) (deltaTime : ℝ)
    (world : DesertWorld) (config : PhysicsConfig)
    (hrock : world.checkRockCollision (candidatePosition entity deltaTime)
      (entityCollisionRadius entity config) = none)
    (hwater : world.checkWaterCollision (candidatePosition entity deltaTime)
      (entityCollisionRadius entity config) = none)
    (hf : world.getTerrainEffect (candidatePosition entity deltaTime) < 1)
    (hdt : 0 ≤ deltaTime) (htfm : 0 ≤ config.terrainFrictionMultiplier) :
    (0 < entity.speed → entity.speed < config.maxSpeed * config.minSpeedMultiplier →
      (updateEntityPhysics entity deltaTime world config).1.speed
        = config.maxSpeed * config.minSpeedMultiplier) ∧
    (entity.speed < 0 → -config.maxSpeed * config.minReverseSpeedMultiplier < entity.speed →
      (updateEntityPhysics entity deltaTime world config).1.speed
        = -config.maxSpeed * config.minReverseSpeedMultiplier) := by
  have hfr : 0 ≤ (1 - world.getTerrainEffect (candidatePosition entity deltaTime)) *
      config.terrainFrictionMultiplier * deltaTime :=
    mul_nonneg (mul_nonneg (by linarith) htfm) hdt
  constructor
  · intro hs hlt
    simp only [updateEntityPhysics, hrock, hwater, applyTerrainEffects]
    split_ifs
    exact max_eq_left (by linarith)
  · intro hs hgt
    simp only [updateEntityPhysics, hrock, hwater, applyTerrainEffects]
    split_ifs with h1
    · exact absurd h1 (by linarith)
    · exact min_eq_left (by linarith)

/-- C10 witness: an entity crawling at speed 10 on 0.5-factor terrain is
accelerated by the clamp to exactly the 40-unit floor. -/
theorem terrainFrictionRaisesSlowSpeedToFloor_witness :
    (updateEntityPhysics slowEntity 0.1 terrainScenarioWorld createVehicleConfig).1.speed
      = createVehicleConfig.maxSpeed * createVehicleConfig.minSpeedMultiplier := by
  have hcand : candidatePosition slowEntity 0.1 = ⟨1, 0⟩ := by
    unfold candidatePosition slowEntity Vector2D.fromAngle Vector2D.multiply Vector2D.add
    simp only [Vector2D.mk.injEq]
    rw [Real.cos_zero, Real.sin_zero]
    norm_num
  have hfac : terrainScenarioWorld.getTerrainEffect ⟨1, 0⟩ = 0.5 := by
    unfold DesertWorld.getTerrainEffect terrainScenarioWorld sandZone
    simp only [List.foldl]
    rw [if_pos]
    · norm_num [min_def]
    · rw [show ((⟨1, 0⟩ : Vector2D).subtract ⟨0, 0⟩) = ⟨1, 0⟩ by
        unfold Vector2D.subtract
        simp only [Vector2D.mk.injEq]
        norm_num]
      rw [Vector2D.length_axis]
      norm_num
  have hf : terrainScenarioWorld.getTerrainEffect (candidatePosition slowEntity 0.1) < 1 := by
    rw [hcand, hfac]
    norm_num
  exact (terrainFrictionRaisesSlowSpeedToFloor slowEntity 0.1 terrainScenarioWorld
      createVehicleConfig (terrainScenario_noRock _ _) (terrainScenario_noWater _ _) hf
      (by norm_num)
      (by norm_num [createVehicleConfig, GameConfig.VEHICLE_TERRAIN_FRICTION_MULTIPLIER])).1
    (by norm_num [slowEntity])
    (by norm_num [slowEntity, createVehicleConfig, GameConfig.VEHICLE_MAX_SPEED,
      GameConfig.VEHICLE_MIN_SPEED_MULTIPLIER])

/-! Lifecycle monotonicity of dead entities. -/

theorem update_of_dead (behaviorUpdate : BanditEntity → BanditEntity) (e : BanditEntity)
    (h : e.isAlive = false) : BanditEntity.update behaviorUpdate e = e := by
  unfold BanditEntity.update
  rw [h]
  simp

theorem not_mem_prune_of_dead (e : BanditEntity) (h : e.isAlive = false)
    (worldWidth worldHeight : ℝ) :
    ∀ enemies : List BanditEntity, e ∉ pruneEnemies worldWidth worldHeight enemies := by
  intro enemies
  induction enemies with
  | nil =>
    unfold pruneEnemies
    simp
  | cons a rest ih =>
    unfold pruneEnemies
    split_ifs with hcond
    · intro hmem
      rcases List.mem_cons.mp hmem with heq | hmem2
      · rw [← heq] at hcond
        rw [h] at hcond
        simp at hcond
      · exact ih hmem2
    · exact ih

/-- C7: a dead entity (`isAlive = false`) is frozen: its update is the
identity (position, angle, speed unchanged), its `isAlive` flag stays
false (never resurrected), `checkCollisionWithPlayer` reports no
collision against any player position, and it is absent from the result
of lifecycle pruning over any entity list. -/
theorem deadEntityFrozen (e : BanditEntity) (behaviorUpdate : BanditEntity → BanditEntity)
    (playerPosition : Vector2D) (playerRadius : ℝ) (enemies : List BanditEntity)
    (worldWidth worldHeight : ℝ) (h : e.isAlive = false) :
    BanditEntity.update behaviorUpdate e = e ∧
    (BanditEntity.update behaviorUpdate e).isAlive = false ∧
    ¬e.checkCollisionWithPlayer playerPosition playerRadius ∧
    e ∉ pruneEnemies worldWidth worldHeight enemies := by
  have hupd := update_of_dead behaviorUpdate e h
  refine ⟨hupd, by rw [hupd, h], ?_, not_mem_prune_of_dead e h worldWidth worldHeight enemies⟩
  intro hc
  unfold BanditEntity.checkCollisionWithPlayer at hc
  rw [h] at hc
  simp at hc

/-- C7 witness: the theorem applied to a concrete destroyed bandit. -/
theorem deadEntityFrozen_witness :
    BanditEntity.update id deadBandit = deadBandit ∧
    (BanditEntity.update id deadBandit).isAlive = false ∧
    ¬deadBandit.checkCollisionWithPlayer ⟨600, 600⟩ 12 ∧
    deadBandit ∉ pruneEnemies 2400 1800 [deadBandit] :=
  deadEntityFrozen deadBandit id ⟨600, 600⟩ 12 [deadBandit] 2400 1800 rfl

/-! Counting live entities through the spawn / update / prune phases. -/

theorem countAlive_nil : countAlive [] = 0 := rfl

theorem countAlive_cons (a : BanditEntity) (l : List BanditEntity) :
    countAlive (a :: l) = (if a.isAlive then 1 else 0) + countAlive l := by
  unfold countAlive
  rw [List.filter_cons]
  split_ifs with ha
  · simp [Nat.add_comm]
  · simp

theorem countAlive_append_alive (l : List BanditEntity) (b : BanditEntity)
    (hb : b.isAlive = true) : countAlive (l ++ [b]) = countAlive l + 1 := by
  unfold countAlive
  rw [List.filter_append]
  simp [hb]

theorem update_id (e : BanditEntity) : BanditEntity.update id e = e := by
  unfold BanditEntity.update
  split_ifs <;> rfl

theorem countAlive_map_update_le (behaviorUpdate : BanditEntity → BanditEntity)
    (l : List BanditEntity) :
    countAlive (l.map (BanditEntity.update behaviorUpdate)) ≤ countAlive l := by
  induction l with
  | nil => simp [countAlive]
  | cons a rest ih =>
    rw [List.map_cons, countAlive_cons, countAlive_cons]
    have hhead : (if (BanditEntity.update behaviorUpdate a).isAlive then 1 else 0)
        ≤ (if a.isAlive then 1 else 0) := by
      by_cases ha : a.isAlive
      · rw [if_pos ha]
        rcases Bool.eq_false_or_eq_true (BanditEntity.update behaviorUpdate a).isAlive
          with h2 | h2 <;> simp [h2]
      · rw [update_of_dead behaviorUpdate a (by simpa using ha)]
    omega

theorem prune_sublist (worldWidth worldHeight : ℝ) (l : List BanditEntity) :
    (pruneEnemies worldWidth worldHeight l).Sublist l := by
  induction l with
  | nil => simp [pruneEnemies]
  | cons a rest ih =>
    unfold pruneEnemies
    split_ifs with hcond
    · exact ih.cons₂ a
    · exact ih.cons a

theorem countAlive_prune_le (worldWidth worldHeight : ℝ) (l : List BanditEntity) :
    countAlive (pruneEnemies worldWidth worldHeight l) ≤ countAlive l :=
  List.Sublist.length_le ((prune_sublist worldWidth worldHeight l).filter _)

theorem spawnEnemy_of_anchors (definition : EntityDefinition)
    (waterObstacles : List Obstacle) (worldWidth worldHeight : ℝ)
    (rng : SpawnRandomness) (hanchors : waterObstacles ≠ []) :
    ∃ b, spawnEnemy definition waterObstacles worldWidth worldHeight rng = some b ∧
      b.isAlive = true := by
  unfold spawnEnemy
  cases hget : waterObstacles.get? (rng.anchorIndex % waterObstacles.length) with
  | none =>
    exfalso
    have hlen := List.get?_eq_none.mp hget
    have hpos : 0 < waterObstacles.length := List.length_pos.mpr hanchors
    exact absurd hlen (by simpa using Nat.mod_lt rng.anchorIndex hpos)
  | some waterHole => exact ⟨_, rfl, rfl⟩

/-- C8: per registered type, `updateEnemyType` spawns exactly one entity
when the accumulated spawn timer reaches `spawnInterval` while the live
count is below `maxActive` (given a nonempty anchor list), then resets
the timer to zero; otherwise it spawns nothing and keeps accumulating.
Consequently a live count `≤ maxActive` is preserved by every tick. -/
theorem spawnThrottling (definition : EntityDefinition) (waterObstacles : List Obstacle)
    (worldWidth worldHeight : ℝ) (behaviorUpdate : BanditEntity → BanditEntity)
    (rng : SpawnRandomness) (s : EnemyTypeManagerState) (deltaTime : ℝ)
    (hanchors : waterObstacles ≠ []) :
    ((spawnPhase definition waterObstacles worldWidth worldHeight rng s deltaTime).enemies.length
      = s.enemies.length +
        (if definition.spawnInterval ≤ s.spawnTimer + deltaTime ∧
            countAlive s.enemies < definition.maxActive then 1 else 0)) ∧
    ((spawnPhase definition waterObstacles worldWidth worldHeight rng s deltaTime).spawnTimer
      = if definition.spawnInterval ≤ s.spawnTimer + deltaTime ∧
            countAlive s.enemies < definition.maxActive then 0
        else s.spawnTimer + deltaTime) ∧
    (countAlive s.enemies ≤ definition.maxActive →
      countAlive (updateEnemyType definition waterObstacles worldWidth worldHeight
          behaviorUpdate rng s deltaTime).enemies ≤ definition.maxActive) := by
  obtain ⟨b, hb, hbAlive⟩ :=
    spawnEnemy_of_anchors definition waterObstacles worldWidth worldHeight rng hanchors
  refine ⟨?_, ?_, ?_⟩
  · simp only [spawnPhase]
    split_ifs with hcond
    · simp only [hb]
      simp
    · simp
  · simp only [spawnPhase]
    split_ifs with hcond
    · rfl
    · rfl
  · intro hle
    have h1 : countAlive (spawnPhase definition waterObstacles worldWidth worldHeight
        rng s deltaTime).enemies ≤ definition.maxActive := by
      simp only [spawnPhase]
      split_ifs with hcond
      · simp only [hb]
        show countAlive (s.enemies ++ [b]) ≤ definition.maxActive
        rw [countAlive_append_alive s.enemies b hbAlive]
        have := hcond.2
        omega
      · exact hle
    calc countAlive (updateEnemyType definition waterObstacles worldWidth worldHeight
          behaviorUpdate rng s deltaTime).enemies
        ≤ countAlive ((spawnPhase definition waterObstacles worldWidth worldHeight
            rng s deltaTime).enemies.map (BanditEntity.update behaviorUpdate)) :=
          countAlive_prune_le _ _ _
      _ ≤ countAlive (spawnPhase definition waterObstacles worldWidth worldHeight
            rng s deltaTime).enemies := countAlive_map_update_le _ _
      _ ≤ definition.maxActive := h1

/-! Evaluating the spawn-throttling scenario. -/

theorem scenario_spawnEnemy :
    spawnEnemy waterBanditDefinition [scenarioOasis] 2400 1800 scenarioSpawnRng
      = some scenarioBandit := rfl

theorem scenarioBandit_alive : scenarioBandit.isAlive = true := rfl

theorem scenarioBandit_x : scenarioBandit.position.x = 1230 := by
  show 1200 + Real.cos (0 * (2 * Real.pi)) * (30 + 0 * (50 - 30)) = 1230
  rw [zero_mul, Real.cos_zero]
  norm_num

theorem scenarioBandit_y : scenarioBandit.position.y = 900 := by
  show 900 + Real.sin (0 * (2 * Real.pi)) * (30 + 0 * (50 - 30)) = 900
  rw [zero_mul, Real.sin_zero]
  norm_num

theorem scenarioBandit_not_escaped : ¬scenarioBandit.hasEscaped 2400 1800 := by
  unfold BanditEntity.hasEscaped
  push_neg
  exact ⟨by rw [scenarioBandit_x]; norm_num, by rw [scenarioBandit_x]; norm_num,
    by rw [scenarioBandit_y]; norm_num, by rw [scenarioBandit_y]; norm_num⟩

theorem countAlive_replicate (k : ℕ) (b : BanditEntity) (hb : b.isAlive = true) :
    countAlive (List.replicate k b) = k := by
  induction k with
  | zero => rfl
  | succ n ih =>
    rw [List.replicate_succ, countAlive_cons, if_pos hb, ih]
    omega

theorem map_update_id (l : List BanditEntity) :
    l.map (BanditEntity.update id) = l := by
  induction l with
  | nil => rfl
  | cons a rest ih => rw [List.map_cons, update_id, ih]

theorem prune_replicate_scenario (k : ℕ) :
    pruneEnemies 2400 1800 (List.replicate k scenarioBandit)
      = List.replicate k scenarioBandit := by
  induction k with
  | zero => rfl
  | succ n ih =>
    rw [List.replicate_succ]
    show (if scenarioBandit.isAlive = true ∧ ¬scenarioBandit.hasEscaped 2400 1800 then
        scenarioBandit :: pruneEnemies 2400 1800 (List.replicate n scenarioBandit)
      else pruneEnemies 2400 1800 (List.replicate n scenarioBandit))
      = scenarioBandit :: List.replicate n scenarioBandit
    rw [if_pos ⟨scenarioBandit_alive, scenarioBandit_not_escaped⟩, ih]

theorem scenarioStep_spawn (k : ℕ) (hk : k < 4) (t : ℝ) (ht : 2 ≤ t + 2) :
    scenarioStep ⟨t, List.replicate k scenarioBandit⟩
      = ⟨0, List.replicate (k + 1) scenarioBandit⟩ := by
  unfold scenarioStep updateEnemyType
  simp only [spawnPhase]
  rw [if_pos ⟨by
      show waterBanditDefinition.spawnInterval ≤ t + 2
      norm_num [waterBanditDefinition, GameConfig.WATER_BANDIT_SPAWN_INTERVAL]
      linarith,
    by
      show countAlive (List.replicate k scenarioBandit) < waterBanditDefinition.maxActive
      rw [countAlive_replicate k scenarioBandit scenarioBandit_alive]
      simpa [waterBanditDefinition, GameConfig.WATER_BANDIT_MAX_ACTIVE] using hk⟩]
  rw [scenario_spawnEnemy]
  show (⟨0, pruneEnemies 2400 1800
      ((List.replicate k scenarioBandit ++ [scenarioBandit]).map (BanditEntity.update id))⟩
    : EnemyTypeManagerState) = ⟨0, List.replicate (k + 1) scenarioBandit⟩
  rw [map_update_id, ← List.replicate_succ', prune_replicate_scenario]

theorem scenarioStep_atCap (t : ℝ) :
    scenarioStep ⟨t, List.replicate 4 scenarioBandit⟩
      = ⟨t + 2, List.replicate 4 scenarioBandit⟩ := by
  unfold scenarioStep updateEnemyType
  simp only [spawnPhase]
  rw [if_neg (by
    intro h
    have h2 := h.2
    rw [countAlive_replicate 4 scenarioBandit scenarioBandit_alive] at h2
    simp [waterBanditDefinition, GameConfig.WATER_BANDIT_MAX_ACTIVE] at h2)]
  show (⟨t + 2, pruneEnemies 2400 1800
      ((List.replicate 4 scenarioBandit).map (BanditEntity.update id))⟩
    : EnemyTypeManagerState) = ⟨t + 2, List.replicate 4 scenarioBandit⟩
  rw [map_update_id, prune_replicate_scenario]

/-- C8 witness: the theorem applied at the capped state, together with
the 10-second scenario: with spawnInterval 2 and maxActive 4, five
2-second ticks from an empty manager reach exactly 4 live bandits,
never 5. -/
theorem spawnThrottling_witness :
    countAlive (updateEnemyType waterBanditDefinition [scenarioOasis] 2400 1800 id
        scenarioSpawnRng ⟨0, List.replicate 4 scenarioBandit⟩ 2).enemies
      ≤ waterBanditDefinition.maxActive ∧
    countAlive (scenarioStep (scenarioStep (scenarioStep (scenarioStep
      (scenarioStep ⟨0, []⟩))))).enemies = 4 ∧
    (scenarioStep (scenarioStep (scenarioStep (scenarioStep
      (scenarioStep ⟨0, []⟩))))).enemies.length = 4 := by
  have h5 : scenarioStep (scenarioStep (scenarioStep (scenarioStep
      (scenarioStep ⟨0, []⟩)))) = ⟨0 + 2, List.replicate 4 scenarioBandit⟩ := by
    rw [show (⟨0, []⟩ : EnemyTypeManagerState)
        = ⟨0, List.replicate 0 scenarioBandit⟩ from rfl]
    rw [scenarioStep_spawn 0 (by norm_num) 0 (by norm_num)]
    rw [scenarioStep_spawn (0 + 1) (by norm_num) 0 (by norm_num)]
    rw [scenarioStep_spawn (0 + 1 + 1) (by norm_num) 0 (by norm_num)]
    rw [scenarioStep_spawn (0 + 1 + 1 + 1) (by norm_num) 0 (by norm_num)]
    rw [show (0 : ℕ) + 1 + 1 + 1 + 1 = 4 from rfl]
    exact scenarioStep_atCap 0
  refine ⟨(spawnThrottling waterBanditDefinition [scenarioOasis] 2400 1800 id
      scenarioSpawnRng ⟨0, List.replicate 4 scenarioBandit⟩ 2 (by simp)).2.2
      (by
        show countAlive (List.replicate 4 scenarioBandit) ≤ waterBanditDefinition.maxActive
        rw [countAlive_replicate 4 scenarioBandit scenarioBandit_alive]
        norm_num [waterBanditDefinition, GameConfig.WATER_BANDIT_MAX_ACTIVE]), ?_, ?_⟩
  · rw [h5]
    show countAlive (List.replicate 4 scenarioBandit) = 4
    exact countAlive_replicate 4 scenarioBandit scenarioBandit_alive
  · rw [h5]
    show (List.replicate 4 scenarioBandit).length = 4
    simp

/-- C9: the avoidance-grid lookup is a total function of the query
position; it returns `none` exactly when the floored grid coordinates
(position divided by the 32-unit cell size) fall outside the grid bounds
or the addressed cell `hasObstacles` flag is off, and otherwise it
returns that cell stored avoidance vector. -/
theorem avoidanceLookupTotal (w : DesertWorld) (position : Vector2D) :
    (w.getAvoidanceVector position = none ↔
      (⌊position.x / gridCellSize⌋ < 0 ∨ gridWidth ≤ ⌊position.x / gridCellSize⌋ ∨
        ⌊position.y / gridCellSize⌋ < 0 ∨ gridHeight ≤ ⌊position.y / gridCellSize⌋ ∨
        ¬(computeAvoidanceForCell w ⌊position.x / gridCellSize⌋
            ⌊position.y / gridCellSize⌋).hasObstacles)) ∧
    (¬(⌊position.x / gridCellSize⌋ < 0 ∨ gridWidth ≤ ⌊position.x / gridCellSize⌋ ∨
        ⌊position.y / gridCellSize⌋ < 0 ∨ gridHeight ≤ ⌊position.y / gridCellSize⌋) →
      (computeAvoidanceForCell w ⌊position.x / gridCellSize⌋
          ⌊position.y / gridCellSize⌋).hasObstacles →
      w.getAvoidanceVector position
        = some (computeAvoidanceForCell w ⌊position.x / gridCellSize⌋
            ⌊position.y / gridCellSize⌋).avoidanceVector) := by
  simp only [DesertWorld.getAvoidanceVector]
  constructor
  · split_ifs with hb hc
    · exact iff_of_true rfl (by tauto)
    · refine iff_of_false (by simp) ?_
      intro hor
      rcases hor with h | h | h | h | h
      · exact hb (Or.inl h)
      · exact hb (Or.inr (Or.inl h))
      · exact hb (Or.inr (Or.inr (Or.inl h)))
      · exact hb (Or.inr (Or.inr (Or.inr h)))
      · exact h hc
    · exact iff_of_true rfl (Or.inr (Or.inr (Or.inr (Or.inr hc))))
  · intro hbound hhas
    split_ifs
    rfl

/-- C9 witness: an out-of-bounds query (negative x) returns `none`
instead of failing. -/
theorem avoidanceLookupTotal_witness :
    terrainScenarioWorld.getAvoidanceVector ⟨-5, 10⟩ = none := by
  have hfx : (⌊(-5 : ℝ) / gridCellSize⌋ : ℤ) = -1 := by
    unfold gridCellSize
    rw [Int.floor_eq_iff]
    push_cast
    norm_num
  exact (avoidanceLookupTotal terrainScenarioWorld ⟨-5, 10⟩).1.mpr
    (Or.inl (by
      show (⌊(-5 : ℝ) / gridCellSize⌋ : ℤ) < 0
      rw [hfx]
      norm_num))

/-! The nearest-hazard fold of `computeAvoidanceForCell` computes a
minimizer of the effective distance over the scanned hazards. -/

theorem nearestHazardStep_some (c : Vector2D) (d₀ : ℝ) (p₀ : Vector2D) (a : Obstacle) :
    nearestHazardStep c (some (d₀, p₀)) a
      = if effectiveDistance c a < d₀ then some (effectiveDistance c a, a.position)
        else some (d₀, p₀) := rfl

theorem foldl_nearest_spec (c : Vector2D) (l : List Obstacle) :
    ∀ (d₀ : ℝ) (p₀ : Vector2D),
    ∃ d p, l.foldl (nearestHazardStep c) (some (d₀, p₀)) = some (d, p) ∧
      d ≤ d₀ ∧ (∀ h ∈ l, d ≤ effectiveDistance c h) ∧
      ((d = d₀ ∧ p = p₀) ∨ ∃ h ∈ l, h.position = p ∧ effectiveDistance c h = d) := by
  induction l with
  | nil =>
    intro d₀ p₀
    exact ⟨d₀, p₀, rfl, le_refl _, by simp, Or.inl ⟨rfl, rfl⟩⟩
  | cons a rest ih =>
    intro d₀ p₀
    rw [List.foldl_cons]
    by_cases hlt : effectiveDistance c a < d₀
    · rw [nearestHazardStep_some, if_pos hlt]
      obtain ⟨d, p, heq, hle, hall, hcase⟩ := ih (effectiveDistance c a) a.position
      refine ⟨d, p, heq, le_trans hle (le_of_lt hlt), ?_, ?_⟩
      · intro h hmem
        rcases List.mem_cons.mp hmem with hha | hmem2
        · rw [hha]
          exact hle
        · exact hall h hmem2
      · rcases hcase with ⟨hd, hp⟩ | ⟨h, hmem, hp, hd⟩
        · exact Or.inr ⟨a, List.mem_cons_self a rest, hp.symm, hd.symm⟩
        · exact Or.inr ⟨h, List.mem_cons_of_mem a hmem, hp, hd⟩
    · rw [nearestHazardStep_some, if_neg hlt]
      obtain ⟨d, p, heq, hle, hall, hcase⟩ := ih d₀ p₀
      refine ⟨d, p, heq, hle, ?_, ?_⟩
      · intro h hmem
        rcases List.mem_cons.mp hmem with hha | hmem2
        · rw [hha]
          exact le_trans hle (not_lt.mp hlt)
        · exact hall h hmem2
      · rcases hcase with hbase | ⟨h, hmem, hp, hd⟩
        · exact Or.inl hbase
        · exact Or.inr ⟨h, List.mem_cons_of_mem a hmem, hp, hd⟩

theorem foldl_nearest_none_spec (c : Vector2D) (l : List Obstacle) :
    (l = [] ∧ l.foldl (nearestHazardStep c) none = none) ∨
    ∃ d p, l.foldl (nearestHazardStep c) none = some (d, p) ∧
      (∀ h ∈ l, d ≤ effectiveDistance c h) ∧
      ∃ h ∈ l, h.position = p ∧ effectiveDistance c h = d := by
  cases l with
  | nil => exact Or.inl ⟨rfl, rfl⟩
  | cons a rest =>
    rw [List.foldl_cons,
      show nearestHazardStep c none a
        = some (effectiveDistance c a, a.position) from rfl]
    obtain ⟨d, p, heq, hle, hall, hcase⟩ :=
      foldl_nearest_spec c rest (effectiveDistance c a) a.position
    refine Or.inr ⟨d, p, heq, ?_, ?_⟩
    · intro h hmem
      rcases List.mem_cons.mp hmem with hha | hmem2
      · rw [hha]
        exact hle
      · exact hall h hmem2
    · rcases hcase with ⟨hd, hp⟩ | ⟨h, hmem, hp, hd⟩
      · exact ⟨a, List.mem_cons_self a rest, hp.symm, hd.symm⟩
      · exact ⟨h, List.mem_cons_of_mem a hmem, hp, hd⟩

/-- C5 (amended): for every hazard configuration and grid cell,
`hasObstacles` holds exactly when some qualifying hazard (water, rock,
or terrain zone with `slowdownFactor < 0.8`) has edge distance below 100
from the cell center; and every flagged cell stores
`normalize (cellCenter − h.position)` for a hazard `h` attaining the
minimum edge distance over the same hazard set — a unit vector whenever
the cell center differs from that hazard center (the zero vector when
they coincide).  The grid is a pure function of the obstacle lists,
which no operation mutates after world generation. -/
theorem avoidanceGridConsistency (w : DesertWorld) (gridX gridY : ℤ) :
    ((computeAvoidanceForCell w gridX gridY).hasObstacles ↔
      ∃ h ∈ qualifyingHazards w, effectiveDistance (cellCenter gridX gridY) h < 100) ∧
    ((computeAvoidanceForCell w gridX gridY).hasObstacles →
      ∃ h ∈ qualifyingHazards w,
        (∀ h2 ∈ qualifyingHazards w,
          effectiveDistance (cellCenter gridX gridY) h
            ≤ effectiveDistance (cellCenter gridX gridY) h2) ∧
        (computeAvoidanceForCell w gridX gridY).avoidanceVector
          = ((cellCenter gridX gridY).subtract h.position).normalize ∧
        (cellCenter gridX gridY ≠ h.position →
          (computeAvoidanceForCell w gridX gridY).avoidanceVector.length = 1)) := by
  rcases foldl_nearest_none_spec (cellCenter gridX gridY) (qualifyingHazards w) with
    ⟨hnil, hfold⟩ | ⟨d, p, hfold, hall, h, hmem, hp, hd⟩
  · have hcell : computeAvoidanceForCell w gridX gridY
        = { hasObstacles := False, avoidanceVector := ⟨0, 0⟩, obstacleDistance := none } := by
      simp only [computeAvoidanceForCell, hfold]
    rw [hcell]
    constructor
    · simp [hnil]
    · simp
  · have hcell : computeAvoidanceForCell w gridX gridY
        = { hasObstacles := d < 100
            avoidanceVector :=
              if d < 100 then ((cellCenter gridX gridY).subtract p).normalize else ⟨0, 0⟩
            obstacleDistance := some d } := by
      simp only [computeAvoidanceForCell, hfold]
    rw [hcell]
    constructor
    · constructor
      · intro hlt
        exact ⟨h, hmem, by rw [hd]; exact hlt⟩
      · intro ⟨h2, hm2, hlt2⟩
        exact lt_of_le_of_lt (hall h2 hm2) hlt2
    · intro hlt
      refine ⟨h, hmem, ?_, ?_, ?_⟩
      · intro h2 hm2
        rw [hd]
        exact hall h2 hm2
      · show (if d < 100 then ((cellCenter gridX gridY).subtract p).normalize else ⟨0, 0⟩)
          = ((cellCenter gridX gridY).subtract h.position).normalize
        rw [if_pos hlt, ← hp]
      · intro hne
        show (if d < 100 then ((cellCenter gridX gridY).subtract p).normalize
            else ⟨0, 0⟩).length = 1
        rw [if_pos hlt, ← hp]
        exact Vector2D.length_normalize
          (fun h0 => hne ((Vector2D.subtract_eq_zero_iff _ _).mp h0))

/-- C5 witness: the theorem applied to a one-rock world whose cell
(0, 0) is flagged: the nearest hazard is the rock and the stored vector
is its normalized offset, a unit vector. -/
theorem avoidanceGridConsistency_witness :
    (computeAvoidanceForCell oneRockWorld 0 0).hasObstacles ∧
    ∃ h ∈ qualifyingHazards oneRockWorld,
      (∀ h2 ∈ qualifyingHazards oneRockWorld,
        effectiveDistance (cellCenter 0 0) h ≤ effectiveDistance (cellCenter 0 0) h2) ∧
      (computeAvoidanceForCell oneRockWorld 0 0).avoidanceVector
        = ((cellCenter 0 0).subtract h.position).normalize ∧
      (cellCenter 0 0 ≠ h.position →
        (computeAvoidanceForCell oneRockWorld 0 0).avoidanceVector.length = 1) := by
  have hmem : witnessRock ∈ qualifyingHazards oneRockWorld := by
    simp [qualifyingHazards, oneRockWorld]
  have hcc : cellCenter 0 0 = ⟨16, 16⟩ := by
    unfold cellCenter gridCellSize
    simp only [Vector2D.mk.injEq]
    norm_num
  have heff : effectiveDistance (cellCenter 0 0) witnessRock < 100 := by
    unfold effectiveDistance
    rw [hcc, show ((⟨16, 16⟩ : Vector2D).subtract witnessRock.position) = ⟨-64, 0⟩ by
      unfold witnessRock Vector2D.subtract
      simp only [Vector2D.mk.injEq]
      norm_num]
    rw [Vector2D.length_axis]
    norm_num [witnessRock]
  have hhas := (avoidanceGridConsistency oneRockWorld 0 0).1.mpr ⟨witnessRock, hmem, heff⟩
  exact ⟨hhas, (avoidanceGridConsistency oneRockWorld 0 0).2 hhas⟩

/-! Evaluating the avoidance grid on the degenerate world. -/

theorem foldl_stable_replicate (c : Vector2D) (d : ℝ) (p : Vector2D) (a : Obstacle)
    (n : ℕ) (hge : ¬effectiveDistance c a < d) :
    (List.replicate n a).foldl (nearestHazardStep c) (some (d, p)) = some (d, p) := by
  induction n with
  | zero => rfl
  | succ m ih =>
    rw [List.replicate_succ, List.foldl_cons, nearestHazardStep_some, if_neg hge]
    exact ih

theorem filter_replicate_true {α : Type} (p : α → Bool) (a : α) (hpa : p a = true)
    (n : ℕ) : (List.replicate n a).filter p = List.replicate n a := by
  induction n with
  | zero => rfl
  | succ m ih => rw [List.replicate_succ, List.filter_cons_of_pos hpa, ih]

theorem degenerate_cellCenter : cellCenter 2 2 = ⟨80, 80⟩ := by
  unfold cellCenter gridCellSize
  simp only [Vector2D.mk.injEq]
  push_cast
  norm_num

theorem degenerate_effWater : effectiveDistance (cellCenter 2 2) degWater = 1480 := by
  unfold effectiveDistance
  rw [degenerate_cellCenter,
    show degWater.position = (⟨980, 1280⟩ : Vector2D) from rfl,
    show degWater.radius = (20 : ℝ) from rfl,
    show ((⟨80, 80⟩ : Vector2D).subtract ⟨980, 1280⟩) = ⟨-900, -1200⟩ by
      unfold Vector2D.subtract
      simp only [Vector2D.mk.injEq]
      norm_num]
  rw [show (Vector2D.mk (-900) (-1200)).length = 1500 by
    unfold Vector2D.length
    rw [show (-900 : ℝ) * (-900) + (-1200) * (-1200) = 1500 ^ 2 by norm_num]
    exact Real.sqrt_sq (by norm_num)]
  norm_num

theorem degenerate_effRock : effectiveDistance (cellCenter 2 2) degRock = -16 := by
  unfold effectiveDistance
  rw [degenerate_cellCenter,
    show degRock.position = (⟨80, 80⟩ : Vector2D) from rfl,
    show degRock.radius = (16 : ℝ) from rfl,
    show ((⟨80, 80⟩ : Vector2D).subtract ⟨80, 80⟩) = ⟨0, 0⟩ by
      unfold Vector2D.subtract
      simp only [Vector2D.mk.injEq]
      norm_num]
  rw [Vector2D.length_axis]
  norm_num

theorem degenerate_effZone :
    effectiveDistance (cellCenter 2 2) ⟨⟨980, 1280⟩, 30⟩ = 1470 := by
  unfold effectiveDistance
  rw [degenerate_cellCenter,
    show (Obstacle.mk ⟨980, 1280⟩ 30).position = (⟨980, 1280⟩ : Vector2D) from rfl,
    show (Obstacle.mk ⟨980, 1280⟩ 30).radius = (30 : ℝ) from rfl,
    show ((⟨80, 80⟩ : Vector2D).subtract ⟨980, 1280⟩) = ⟨-900, -1200⟩ by
      unfold Vector2D.subtract
      simp only [Vector2D.mk.injEq]
      norm_num]
  rw [show (Vector2D.mk (-900) (-1200)).length = 1500 by
    unfold Vector2D.length
    rw [show (-900 : ℝ) * (-900) + (-1200) * (-1200) = 1500 ^ 2 by norm_num]
    exact Real.sqrt_sq (by norm_num)]
  norm_num

theorem degenerate_hazards :
    qualifyingHazards degenerateWorld
      = List.replicate 12 degWater ++ [degRock]
          ++ List.replicate 58 (⟨⟨980, 1280⟩, 30⟩ : Obstacle) := by
  unfold qualifyingHazards degenerateWorld
  rw [filter_replicate_true _ degZone (by
    simp only [degZone, decide_eq_true_eq]
    norm_num)]
  rw [List.map_replicate]
  rfl

theorem degenerate_fold :
    (qualifyingHazards degenerateWorld).foldl
        (nearestHazardStep (cellCenter 2 2)) none
      = some (-16, ⟨80, 80⟩) := by
  rw [degenerate_hazards, List.foldl_append, List.foldl_append]
  have h12 : (List.replicate 12 degWater).foldl
      (nearestHazardStep (cellCenter 2 2)) none = some (1480, ⟨980, 1280⟩) := by
    rw [show List.replicate 12 degWater = degWater :: List.replicate 11 degWater from rfl,
      List.foldl_cons,
      show nearestHazardStep (cellCenter 2 2) none degWater
        = some (effectiveDistance (cellCenter 2 2) degWater, degWater.position) from rfl,
      degenerate_effWater,
      show degWater.position = (⟨980, 1280⟩ : Vector2D) from rfl]
    exact foldl_stable_replicate _ _ _ _ 11 (by rw [degenerate_effWater]; norm_num)
  rw [h12, List.foldl_cons, List.foldl_nil, nearestHazardStep_some,
    if_pos (by rw [degenerate_effRock]; norm_num), degenerate_effRock,
    show degRock.position = (⟨80, 80⟩ : Vector2D) from rfl]
  exact foldl_stable_replicate _ _ _ _ 58 (by rw [degenerate_effZone]; norm_num)

/-- C5 counterexample: in a world whose hazard counts match what world
generation produces (12 oases, 58 qualifying terrain zones, a rock), a
rock centered exactly on the center of grid cell (2, 2) makes that cell
flagged (`hasObstacles` holds) while the stored avoidance vector is the
zero vector, of length 0 — not a unit vector. -/
theorem avoidanceVectorNotUnit :
    (computeAvoidanceForCell degenerateWorld 2 2).hasObstacles ∧
    (computeAvoidanceForCell degenerateWorld 2 2).avoidanceVector.length = 0 := by
  have hcell : computeAvoidanceForCell degenerateWorld 2 2
      = { hasObstacles := (-16 : ℝ) < 100
          avoidanceVector :=
            if (-16 : ℝ) < 100 then ((cellCenter 2 2).subtract ⟨80, 80⟩).normalize
            else ⟨0, 0⟩
          obstacleDistance := some (-16) } := by
    simp only [computeAvoidanceForCell, degenerate_fold]
  rw [hcell]
  refine ⟨by norm_num, ?_⟩
  show (if (-16 : ℝ) < 100 then ((cellCenter 2 2).subtract ⟨80, 80⟩).normalize
      else ⟨0, 0⟩).length = 0
  rw [if_pos (by norm_num), degenerate_cellCenter,
    show ((⟨80, 80⟩ : Vector2D).subtract ⟨80, 80⟩) = ⟨0, 0⟩ by
      unfold Vector2D.subtract
      simp only [Vector2D.mk.injEq]
      norm_num,
    Vector2D.normalize_zero, Vector2D.length_axis]
  norm_num

/-! The near-target policies of the two behaviors. -/

/-- C6 (amended): only the evade-to-boundary (escaping) behavior
implements the near-target policy: when the distance to its current
target (escape or avoidance target, after the stuck-detection phase) is
at most 10 units, `EscapingBehavior.updateAI` skips all steering — the
angle is untouched, no direction is normalized — and decelerates via
friction, setting `speed := max 0 (speed − friction × deltaTime)`.  The
pursue behavior has no such branch (see the counterexample). -/
theorem escapingNearTargetFriction (e : BanditEntity) (st : EscapingBehaviorState)
    (deltaTime now rDistance rSide rWander rTurn rAccel : ℝ)
    (hdestroyed : st.destroyed = false)
    (hdist : (((escapingTargetPhase e
        (escapingStuckPhase e st deltaTime now rDistance rSide) now).1).subtract
          e.position).length ≤ 10) :
    (EscapingBehavior.updateAI e st deltaTime now rDistance rSide rWander rTurn rAccel).1
      = { e with speed := max 0 (e.speed - e.entityDefinition.friction * deltaTime) } ∧
    (EscapingBehavior.updateAI e st deltaTime now rDistance rSide rWander rTurn rAccel).2
      = (escapingTargetPhase e
          (escapingStuckPhase e st deltaTime now rDistance rSide) now).2 := by
  unfold EscapingBehavior.updateAI
  rcases htp : escapingTargetPhase e
      (escapingStuckPhase e st deltaTime now rDistance rSide) now with ⟨currentTarget, st₂⟩
  rw [htp] at hdist
  simp only at hdist
  simp only [hdestroyed, Bool.false_eq_true, if_false, htp]
  rw [if_neg (not_lt.mpr hdist)]
  exact ⟨rfl, rfl⟩

theorem nearTarget_stuckPhase :
    escapingStuckPhase nearTargetBandit nearTargetState 0.1 0 0 0 = nearTargetState := by
  unfold escapingStuckPhase
  norm_num [nearTargetBandit, nearTargetState, waterBanditDefinition, max_def]

/-- C6 witness: the escaping entity 5 units from its target (angle 0.3,
speed 0) keeps its angle and gets the friction update exactly. -/
theorem escapingNearTargetFriction_witness :
    (EscapingBehavior.updateAI nearTargetBandit nearTargetState 0.1 0 0 0 0 0 0).1
      = { nearTargetBandit with
          speed := max 0 (nearTargetBandit.speed
            - nearTargetBandit.entityDefinition.friction * 0.1) } :=
  (escapingNearTargetFriction nearTargetBandit nearTargetState 0.1 0 0 0 0 0 0 rfl
    (by
      rw [nearTarget_stuckPhase,
        show escapingTargetPhase nearTargetBandit nearTargetState 0
          = (⟨5, 0⟩, nearTargetState) from rfl]
      show ((Vector2D.mk 5 0).subtract nearTargetBandit.position).length ≤ 10
      rw [show (Vector2D.mk 5 0).subtract nearTargetBandit.position = ⟨5, 0⟩ by
        unfold nearTargetBandit Vector2D.subtract
        simp only [Vector2D.mk.injEq]
        norm_num]
      rw [Vector2D.length_axis]
      norm_num)).1

theorem normalize_pos_axis {a : ℝ} (ha : 0 < a) :
    (Vector2D.mk a 0).normalize = ⟨1, 0⟩ := by
  have hlen : (Vector2D.mk a 0).length = a := by
    rw [Vector2D.length_axis, abs_of_pos ha]
  rw [Vector2D.normalize_of_length_ne_zero (by rw [hlen]; exact ne_of_gt ha), hlen]
  simp only [Vector2D.mk.injEq]
  constructor
  · field_simp
  · simp

theorem atan2_zero_one : atan2 0 1 = 0 := by
  unfold atan2
  rw [if_pos (by norm_num : (0:ℝ) < 1)]
  norm_num [Real.arctan_zero]

theorem normalizeAngleDiff_zero : normalizeAngleDiff 0 = 0 := by
  unfold normalizeAngleDiff
  rw [if_neg (not_lt.mpr Real.pi_pos.le),
    if_neg (not_lt.mpr (by linarith [Real.pi_pos]))]

/-- C6 counterexample: the pursue (chasing) behavior performs no
near-target friction: an entity at distance 0 from its target (well
below the 10-unit epsilon) still steers and accelerates — its speed
rises from 0 to 20 in one 0.1-second update instead of decelerating. -/
theorem chasingNearTargetStillAccelerates :
    (chasingState.target.subtract chasingBandit.position).length = 0 ∧
    chasingBandit.speed = 0 ∧
    (ChasingBehavior.updateAI chasingBandit chasingState 0.1 terrainScenarioWorld
      0 0.5).1.speed = 20 := by
  refine ⟨?_, rfl, ?_⟩
  · rw [show chasingState.target.subtract chasingBandit.position = ⟨0, 0⟩ by
      unfold chasingState chasingBandit Vector2D.subtract
      simp only [Vector2D.mk.injEq]
      norm_num]
    rw [Vector2D.length_axis]
    norm_num
  · have hn01 : (Vector2D.mk 0.1 0).normalize = ⟨1, 0⟩ := normalize_pos_axis (by norm_num)
    norm_num [ChasingBehavior.updateAI, chasingState, chasingBandit,
      waterBanditDefinition, Vector2D.subtract, Vector2D.multiply, Vector2D.add,
      Vector2D.normalize_zero, hn01, Real.cos_zero, Real.sin_zero, atan2_zero_one,
      normalizeAngleDiff_zero, min_def]

end RaceOn
